import Mathlib

/-!
Verification of the EdgeQL compiler-context engine
(`src/edb/lang/edgeql/compiler/context.py`).

The Python code manipulates mutable objects (dicts, sets, lists,
`collections.ChainMap`s, scope-tree nodes, counters) that are shared by
reference between stack frames.  To make reference identity and mutation
visibility expressible we use a small heap model: every mutable Python
object lives at a `Nat` address in a `Heap`, and a `ContextLevel` field
that holds a mutable object in Python holds the object's address here.
Two fields are "the very same object" exactly when they hold the same
address; a mutation at one address is invisible through a different
address.

Immutable Python values (`None`, `bool`, `str` handles, tuples of
strings) are modelled as plain values (`Option Nat`, `Bool`,
`List String`): for immutable objects, identity and value cannot be
distinguished by mutation, and assignment preserves both.
-/

/-- A Python object stored in the heap.  `dict` entries, `pset`
(Python `set`) elements and `plist` (Python `list`) elements refer to
other objects by address (they are opaque for the claims considered).
`chainmap` models `collections.ChainMap`: a list of addresses of the
underlying dicts, first map written on insert.  `scopenode` models
`irast.ScopeTreeNode`: fence flag, ordered children (addresses) and
path-id bindings.  `counter` models `compiler.Counter`, `aliasgen`
models `compiler.AliasGenerator` (its next sequence number). -/
inductive Obj : Type where
  | dict (entries : List (Nat × Nat))
  | pset (elems : List Nat)
  | plist (elems : List Nat)
  | chainmap (maps : List Nat)
  | scopenode (fenced : Bool) (children : List Nat) (bindings : List (Nat × Nat))
  | counter (n : Nat)
  | aliasgen (n : Nat)
  | missing
deriving DecidableEq

/-- The heap: a bump allocator.  Addresses `≥ next` are unallocated. -/
structure Heap where
  next : Nat
  store : Nat → Obj

def Heap.get (h : Heap) (a : Nat) : Obj := h.store a

def Heap.set (h : Heap) (a : Nat) (o : Obj) : Heap :=
  { h with store := fun b => if b = a then o else h.store b }

/-- Allocate a fresh object; returns its address and the new heap. -/
def Heap.alloc (h : Heap) (o : Obj) : Nat × Heap :=
  (h.next, { next := h.next + 1,
             store := fun b => if b = h.next then o else h.store b })

def Heap.empty : Heap := { next := 0, store := fun _ => Obj.missing }

@[simp] theorem Heap.get_set_self (h : Heap) (a : Nat) (o : Obj) :
    (h.set a o).get a = o := by
  simp [Heap.get, Heap.set]

theorem Heap.get_set_of_ne (h : Heap) (a b : Nat) (o : Obj) (hne : b ≠ a) :
    (h.set a o).get b = h.get b := by
  simp [Heap.get, Heap.set, hne]

@[simp] theorem Heap.set_next (h : Heap) (a : Nat) (o : Obj) :
    (h.set a o).next = h.next := rfl

@[simp] theorem Heap.alloc_fst (h : Heap) (o : Obj) :
    (h.alloc o).1 = h.next := rfl

@[simp] theorem Heap.alloc_next (h : Heap) (o : Obj) :
    (h.alloc o).2.next = h.next + 1 := rfl

@[simp] theorem Heap.get_alloc_self (h : Heap) (o : Obj) :
    (h.alloc o).2.get h.next = o := by
  simp [Heap.get, Heap.alloc]

theorem Heap.get_alloc_of_ne (h : Heap) (o : Obj) (b : Nat) (hne : b ≠ h.next) :
    (h.alloc o).2.get b = h.get b := by
  simp [Heap.get, Heap.alloc, hne]

theorem Heap.get_alloc_of_lt (h : Heap) (o : Obj) (b : Nat) (hb : b < h.next) :
    (h.alloc o).2.get b = h.get b :=
  h.get_alloc_of_ne o b (Nat.ne_of_lt hb)

/-! ### Operations on the heap objects (Python semantics) -/

/-- First value bound to `k` in a dict's entry list. -/
def dictFind (es : List (Nat × Nat)) (k : Nat) : Option Nat :=
  match es with
  | [] => none
  | (k', v) :: rest => if k = k' then some v else dictFind rest k

/-- Entries of the dict at address `a` (empty if not a dict). -/
def Heap.dictContents (h : Heap) (a : Nat) : List (Nat × Nat) :=
  match h.get a with
  | .dict es => es
  | _ => []

/-- `d[k]` for the dict at address `a`. -/
def Heap.dictLookup (h : Heap) (a k : Nat) : Option Nat :=
  dictFind (h.dictContents a) k

/-- `d[k] = v`: in-place update of the dict at address `a`. -/
def Heap.dictInsert (h : Heap) (a k v : Nat) : Heap :=
  match h.get a with
  | .dict es => h.set a (.dict ((k, v) :: es.filter (fun e => decide (e.1 ≠ k))))
  | _ => h

/-- Elements of the set at address `a` (empty if not a set). -/
def Heap.setContents (h : Heap) (a : Nat) : List Nat :=
  match h.get a with
  | .pset xs => xs
  | _ => []

/-- `s.add(x)`: in-place insertion into the set at address `a`. -/
def Heap.setInsert (h : Heap) (a x : Nat) : Heap :=
  match h.get a with
  | .pset xs => h.set a (.pset (if x ∈ xs then xs else x :: xs))
  | _ => h

/-- `d.copy()` / `s.copy()`: allocate a shallow duplicate of the object
at address `a`; the original is untouched. -/
def Heap.clone (h : Heap) (a : Nat) : Nat × Heap :=
  h.alloc (h.get a)

/-- The list of underlying-map addresses of the chainmap at `a`. -/
def Heap.chainMaps (h : Heap) (a : Nat) : List Nat :=
  match h.get a with
  | .chainmap ms => ms
  | _ => []

/-- Lookup through a list of dict addresses, first hit wins. -/
def chainFind (h : Heap) (ms : List Nat) (k : Nat) : Option Nat :=
  match ms with
  | [] => none
  | m :: rest =>
    match dictFind (h.dictContents m) k with
    | some v => some v
    | none => chainFind h rest k

/-- `cm[k]` for the `ChainMap` at address `a`. -/
def Heap.chainLookup (h : Heap) (a k : Nat) : Option Nat :=
  chainFind h (h.chainMaps a) k

/-- `cm[k] = v`: a `ChainMap` write goes to its first map. -/
def Heap.chainInsert (h : Heap) (a k v : Nat) : Heap :=
  match h.get a with
  | .chainmap (m :: _) => h.dictInsert m k v
  | _ => h

/-- `cm.new_child()`: a fresh `ChainMap` object whose maps are a fresh
empty dict followed by the receiver's maps. -/
def Heap.newChild (h : Heap) (a : Nat) : Nat × Heap :=
  let d := h.alloc (.dict [])
  d.2.alloc (.chainmap (d.1 :: d.2.chainMaps a))

/-- `collections.ChainMap()`: a fresh `ChainMap` over one fresh empty
dict. -/
def Heap.newChainMap (h : Heap) : Nat × Heap :=
  let d := h.alloc (.dict [])
  d.2.alloc (.chainmap [d.1])

/-- Modelled from the spec (§4.3 Alias Generator, `edb.lang.common.compiler`
is not part of the sources): `get(prefix)` issues a fresh identifier
beginning with `prefix` — here `prefix ++ "~" ++ n` for the generator's
current sequence number `n`, which is then incremented in place. -/
def Heap.aliasGet (h : Heap) (a : Nat) (pfx : String) : String × Heap :=
  match h.get a with
  | .aliasgen n => (pfx ++ "~" ++ Nat.repr n, h.set a (.aliasgen (n + 1)))
  | _ => (pfx, h)

/-! ### Scope-tree operations

`irast.ScopeTreeNode` (`edb.lang.ir.ast`) is not part of the sources;
the operations below are modelled from the spec (§4.2 Scope Tree). -/

/-- Modelled from the spec: `irast.new_scope_tree()` creates a fresh
root scope-tree node (a fence, no children, no bindings). -/
def new_scope_tree (h : Heap) : Nat × Heap :=
  h.alloc (.scopenode true [] [])

/-- Modelled from the spec: `parent.attach_fence()` creates a new node
marked as a fence, links it as a child of `parent`, and returns it. -/
def attach_fence (h : Heap) (p : Nat) : Nat × Heap :=
  let r := h.alloc (.scopenode true [] [])
  match r.2.get p with
  | .scopenode fl cs bs => (r.1, r.2.set p (.scopenode fl (cs ++ [r.1]) bs))
  | _ => r

/-- Modelled from the spec: `parent.remove_subtree(child)` detaches
`child` from `parent`'s children. -/
def remove_subtree (h : Heap) (p c : Nat) : Heap :=
  match h.get p with
  | .scopenode fl cs bs => h.set p (.scopenode fl (cs.filter (fun x => decide (x ≠ c))) bs)
  | _ => h

/-- Modelled from the spec: `node.copy()` returns a structurally
independent duplicate of the subtree rooted at `node` (deep copy of node
identities and bindings, not of the sets they reference).  `fuel` bounds
the recursion depth; callers pass the current heap bound, which exceeds
the depth of any tree built by these operations. -/
def copyNode (fuel : Nat) (a : Nat) (h : Heap) : Nat × Heap :=
  match fuel with
  | 0 => h.alloc .missing
  | fuel' + 1 =>
    match h.get a with
    | .scopenode fl cs bs =>
      let r := cs.foldl
        (fun (acc : List Nat × Heap) c =>
          let s := copyNode fuel' c acc.2
          (acc.1 ++ [s.1], s.2))
        (([] : List Nat), h)
      r.2.alloc (.scopenode fl r.1 bs)
    | o => h.alloc o

/-- Children of the scope-tree node at address `a`. -/
def Heap.scopeChildren (h : Heap) (a : Nat) : List Nat :=
  match h.get a with
  | .scopenode _ cs _ => cs
  | _ => []

/-! ### The compiler context (`context.py`) -/

/-- `ContextSwitchMode` (context.py lines 39-46). -/
inductive ContextSwitchMode : Type where
  | NEW
  | SUBQUERY
  | NEWSCOPE
  | NEWSCOPE_TEMP
  | NEWFENCE
  | NEWFENCE_TEMP
  | DETACHED
deriving DecidableEq

/-- One frame of compiler state (`ContextLevel`, context.py lines 69-172).
Fields that hold a mutable Python object hold its heap address; fields
that hold an immutable value (`None`, `bool`, `str`/object handles that
are never mutated through this frame, tuples of strings) are plain
values.  `partial_path_pref` is `partial_path_prefix` in the source
(renamed). -/
structure ContextLevel : Type where
  mode : ContextSwitchMode
  schema : Option Nat
  derived_target_module : Option Nat
  aliases : Nat
  anchors : Nat
  modaliases : Nat
  arguments : Nat
  all_sets : Nat
  stmt_metadata : Nat
  source_map : Nat
  view_nodes : Nat
  view_sets : Nat
  aliased_views : Nat
  view_class_map : Nat
  class_view_overrides : Nat
  clause : Option Nat
  toplevel_clause : Option Nat
  toplevel_stmt : Option Nat
  stmt : Option Nat
  singletons : Nat
  path_id_namespace : List String
  pending_stmt_path_id_namespace : Option String
  view_map : Nat
  class_shapes : Nat
  path_scope : Option Nat
  path_scope_map : Nat
  scope_id_ctr : Nat
  in_aggregate : Bool
  view_scls : Option Nat
  expr_exposed : Bool
  path_as_type : Bool
  partial_path_pref : Option Nat
  view_rptr : Option Nat
  toplevel_result_view_name : Option Nat
  implicit_id_in_shapes : Bool
deriving DecidableEq

/-- `ContextLevel.__init__` with `prevlevel is None` (context.py lines
177-215): the root frame of a fresh compilation.  Every mutable
container is freshly allocated, mirroring the source's construction
order. -/
def ContextLevel.initRoot (h : Heap) : ContextLevel × Heap :=
  let al := h.alloc (.aliasgen 0)            -- compiler.AliasGenerator()
  let an := al.2.alloc (.dict [])            -- anchors = {}
  let ma := an.2.alloc (.dict [])            -- modaliases = {}
  let ar := ma.2.alloc (.dict [])            -- arguments = {}
  let se := ar.2.alloc (.plist [])           -- all_sets = []
  let sm := se.2.alloc (.dict [])            -- stmt_metadata = {}
  let so := sm.2.alloc (.dict [])            -- source_map = {}
  let vn := so.2.alloc (.dict [])            -- view_nodes = {}
  let vs := vn.2.alloc (.dict [])            -- view_sets = {}
  let av := vs.2.newChainMap                 -- aliased_views = ChainMap()
  let vc := av.2.alloc (.dict [])            -- view_class_map = {}
  let co := vc.2.alloc (.dict [])            -- class_view_overrides = {}
  let sg := co.2.alloc (.pset [])            -- singletons = set()
  let vm := sg.2.newChainMap                 -- view_map = ChainMap()
  let cs := vm.2.alloc (.dict [])            -- class_shapes = defaultdict(list)
  let pm := cs.2.alloc (.dict [])            -- path_scope_map = {}
  let sc := pm.2.alloc (.counter 0)          -- scope_id_ctr = Counter()
  ({ mode := .NEW
   , schema := none
   , derived_target_module := none
   , aliases := al.1
   , anchors := an.1
   , modaliases := ma.1
   , arguments := ar.1
   , all_sets := se.1
   , stmt_metadata := sm.1
   , source_map := so.1
   , view_nodes := vn.1
   , view_sets := vs.1
   , aliased_views := av.1
   , view_class_map := vc.1
   , class_view_overrides := co.1
   , clause := none
   , toplevel_clause := none
   , toplevel_stmt := none
   , stmt := none
   , singletons := sg.1
   , path_id_namespace := []
   , pending_stmt_path_id_namespace := none
   , view_map := vm.1
   , class_shapes := cs.1
   , path_scope := none
   , path_scope_map := pm.1
   , scope_id_ctr := sc.1
   , in_aggregate := false
   , view_scls := none
   , expr_exposed := false
   , path_as_type := false
   , partial_path_pref := none
   , view_rptr := none
   , toplevel_result_view_name := none
   , implicit_id_in_shapes := true
   }, sc.2)

/-- `ContextLevel.__init__` with a parent (context.py lines 217-324).
Returns `(child, parent', heap')`: the Python constructor also mutates
`prevlevel` (lazy creation of `prevlevel.path_scope`, lines 314-315 /
321-322), so the possibly-updated parent frame is returned as well.

The record `base` collects the unconditional reference-copies of lines
218-241 together with the `else`-branch assignments of lines 292-310;
for `SUBQUERY` and `DETACHED` every field of the latter group is
overwritten below, exactly as the corresponding branch of the source
assigns it. -/
def ContextLevel.initChild (prev : ContextLevel) (mode : ContextSwitchMode)
    (h : Heap) : ContextLevel × ContextLevel × Heap :=
  let base : ContextLevel :=
    { mode := mode
    -- lines 218-241: process-wide references, copied at every transition
    , schema := prev.schema
    , derived_target_module := prev.derived_target_module
    , aliases := prev.aliases
    , arguments := prev.arguments
    , all_sets := prev.all_sets
    , stmt_metadata := prev.stmt_metadata
    , source_map := prev.source_map
    , view_nodes := prev.view_nodes
    , view_sets := prev.view_sets
    , path_id_namespace := prev.path_id_namespace
    , pending_stmt_path_id_namespace := prev.pending_stmt_path_id_namespace
    , view_map := prev.view_map
    , class_shapes := prev.class_shapes
    , path_scope := prev.path_scope
    , path_scope_map := prev.path_scope_map
    , scope_id_ctr := prev.scope_id_ctr
    , view_scls := prev.view_scls
    , expr_exposed := prev.expr_exposed
    , toplevel_clause := prev.toplevel_clause
    , toplevel_stmt := prev.toplevel_stmt
    , implicit_id_in_shapes := prev.implicit_id_in_shapes
    -- lines 292-310 (`else` branch): shared references / inherited values;
    -- overwritten below for SUBQUERY and DETACHED
    , anchors := prev.anchors
    , modaliases := prev.modaliases
    , aliased_views := prev.aliased_views
    , view_class_map := prev.view_class_map
    , class_view_overrides := prev.class_view_overrides
    , clause := prev.clause
    , stmt := prev.stmt
    , in_aggregate := prev.in_aggregate
    , path_as_type := prev.path_as_type
    , singletons := prev.singletons
    , partial_path_pref := prev.partial_path_pref
    , view_rptr := prev.view_rptr
    , toplevel_result_view_name := prev.toplevel_result_view_name
    }
  let ch : ContextLevel × Heap :=
    match mode with
    | .SUBQUERY =>
      -- lines 243-264
      let an := h.clone prev.anchors                   -- anchors.copy()
      let ma := an.2.clone prev.modaliases             -- modaliases.copy()
      let av := ma.2.newChild prev.aliased_views       -- aliased_views.new_child()
      let vc := av.2.clone prev.view_class_map         -- view_class_map.copy()
      let co := vc.2.clone prev.class_view_overrides   -- class_view_overrides.copy()
      let sg := co.2.clone prev.singletons             -- singletons.copy()
      ({ base with
         anchors := an.1
       , modaliases := ma.1
       , aliased_views := av.1
       , view_class_map := vc.1
       , class_view_overrides := co.1
       , pending_stmt_path_id_namespace := none
       , view_rptr := none
       , view_scls := none
       , clause := none
       , stmt := none
       , singletons := sg.1
       , in_aggregate := false
       , path_as_type := false
       , partial_path_pref := none
       , toplevel_result_view_name := none
       }, sg.2)
    | .DETACHED =>
      -- lines 266-290
      let an := h.clone prev.anchors                   -- anchors.copy()
      let ma := an.2.clone prev.modaliases             -- modaliases.copy()
      let av := ma.2.newChainMap                       -- aliased_views = ChainMap()
      let vc := av.2.alloc (.dict [])                  -- view_class_map = {}
      let co := vc.2.alloc (.dict [])                  -- class_view_overrides = {}
      let so := co.2.alloc (.dict [])                  -- source_map = {}
      let vn := so.2.alloc (.dict [])                  -- view_nodes = {}
      let vs := vn.2.alloc (.dict [])                  -- view_sets = {}
      let ns := vs.2.aliasGet prev.aliases "ns"        -- (self.aliases.get('ns'),)
      let sg := ns.2.alloc (.pset [])                  -- singletons = set()
      ({ base with
         anchors := an.1
       , modaliases := ma.1
       , aliased_views := av.1
       , view_class_map := vc.1
       , class_view_overrides := co.1
       , source_map := so.1
       , view_nodes := vn.1
       , view_sets := vs.1
       , path_id_namespace := [ns.1]
       , pending_stmt_path_id_namespace := none
       , view_rptr := none
       , view_scls := none
       , clause := none
       , stmt := none
       , singletons := sg.1
       , in_aggregate := false
       , path_as_type := false
       , partial_path_pref := none
       , toplevel_result_view_name := none
       }, sg.2)
    | _ => (base, h)
  -- lines 312-317: temporary modes snapshot the (lazily created) node
  let st1 : ContextLevel × ContextLevel × Heap :=
    if mode = .NEWFENCE_TEMP ∨ mode = .NEWSCOPE_TEMP then
      match prev.path_scope with
      | none =>
        let r := new_scope_tree ch.2                   -- lazily create the root
        let prev1 : ContextLevel := { prev with path_scope := some r.1 }
        let cp := copyNode r.2.next r.1 r.2            -- prevlevel.path_scope.copy()
        ({ ch.1 with path_scope := some cp.1 }, prev1, cp.2)
      | some p =>
        let cp := copyNode ch.2.next p ch.2            -- prevlevel.path_scope.copy()
        ({ ch.1 with path_scope := some cp.1 }, prev, cp.2)
    else (ch.1, prev, ch.2)
  -- lines 319-324: fence modes attach a fence to the parent's node
  if mode = .NEWFENCE ∨ mode = .NEWFENCE_TEMP then
    match st1.2.1.path_scope with
    | none =>
      let r := new_scope_tree st1.2.2                  -- lazily create the root
      let prev2 : ContextLevel := { st1.2.1 with path_scope := some r.1 }
      let af := attach_fence r.2 r.1                   -- prevlevel.path_scope.attach_fence()
      ({ st1.1 with path_scope := some af.1 }, prev2, af.2)
    | some p =>
      let af := attach_fence st1.2.2 p                 -- prevlevel.path_scope.attach_fence()
      ({ st1.1 with path_scope := some af.1 }, st1.2.1, af.2)
  else st1

/-- `ContextLevel.on_pop` (context.py lines 326-329): popping a
temporary level removes its scope-tree subtree from the parent's node.
Only the heap changes. -/
def ContextLevel.on_pop (self : ContextLevel) (prev : ContextLevel)
    (h : Heap) : Heap :=
  if self.mode = .NEWFENCE_TEMP ∨ self.mode = .NEWSCOPE_TEMP then
    match prev.path_scope, self.path_scope with
    | some p, some c => remove_subtree h p c
    | _, _ => h
  else h

/-! ### The context stack

Modelled from the spec (§4.1 Context Stack; `edb.lang.common.compiler`'s
`CompilerContext` is not part of the sources): `push(mode)` constructs a
new level from the current top via `ContextLevel.__init__` and pushes
it; `pop()` removes the top level and runs its `on_pop` against the new
top. -/

def pushStack (stk : List ContextLevel) (mode : ContextSwitchMode)
    (h : Heap) : List ContextLevel × Heap :=
  match stk with
  | prev :: rest =>
    let r := ContextLevel.initChild prev mode h
    (r.1 :: r.2.1 :: rest, r.2.2)
  | [] => ([], h)

def popStack (stk : List ContextLevel) (h : Heap) :
    List ContextLevel × Heap :=
  match stk with
  | self :: prev :: rest => (prev :: rest, self.on_pop prev h)
  | _ => (stk, h)

/-- A push or a pop, as driven by the statement compiler. -/
inductive Op : Type where
  | push (m : ContextSwitchMode)
  | pop
deriving DecidableEq

def stepOp (s : List ContextLevel × Heap) (op : Op) :
    List ContextLevel × Heap :=
  match op with
  | .push m => pushStack s.1 m s.2
  | .pop => popStack s.1 s.2

def runOps (ops : List Op) (s : List ContextLevel × Heap) :
    List ContextLevel × Heap :=
  ops.foldl stepOp s

/-- Sequences of pushes with matching pops (balanced bracket words over
push/pop). -/
inductive BalancedOps : List Op → Prop where
  | nil : BalancedOps []
  | wrap (m : ContextSwitchMode) (s t : List Op) :
      BalancedOps s → BalancedOps t → BalancedOps (Op.push m :: s ++ Op.pop :: t)

/-! ### Process-wide fields and well-formedness -/

/-- The process-wide fields of a frame (spec §3, first sharing class):
for address-valued fields, equality of `ProcFields` is reference
identity of the underlying objects. -/
structure ProcFields : Type where
  schema : Option Nat
  aliases : Nat
  arguments : Nat
  all_sets : Nat
  stmt_metadata : Nat
  source_map : Nat
  view_nodes : Nat
  view_sets : Nat
  path_id_namespace : List String
  view_map : Nat
  class_shapes : Nat
  scope_id_ctr : Nat
  path_scope_map : Nat
  toplevel_clause : Option Nat
  toplevel_stmt : Option Nat
deriving DecidableEq

def ContextLevel.procFields (l : ContextLevel) : ProcFields :=
  { schema := l.schema
  , aliases := l.aliases
  , arguments := l.arguments
  , all_sets := l.all_sets
  , stmt_metadata := l.stmt_metadata
  , source_map := l.source_map
  , view_nodes := l.view_nodes
  , view_sets := l.view_sets
  , path_id_namespace := l.path_id_namespace
  , view_map := l.view_map
  , class_shapes := l.class_shapes
  , scope_id_ctr := l.scope_id_ctr
  , path_scope_map := l.path_scope_map
  , toplevel_clause := l.toplevel_clause
  , toplevel_stmt := l.toplevel_stmt
  }

def Obj.isDict : Obj → Bool
  | .dict _ => true
  | _ => false

def Obj.isPSet : Obj → Bool
  | .pset _ => true
  | _ => false

def Obj.isChain : Obj → Bool
  | .chainmap _ => true
  | _ => false

def Obj.isAliasGen : Obj → Bool
  | .aliasgen _ => true
  | _ => false

/-- Scope node whose children addresses are all below `bound`. -/
def Obj.scopeOK (bound : Nat) : Obj → Bool
  | .scopenode _ cs _ => cs.all (fun c => decide (c < bound))
  | _ => false

/-- A valid allocated dict reference. -/
def Heap.dictRef (h : Heap) (a : Nat) : Prop :=
  a < h.next ∧ (h.get a).isDict = true

/-- A valid allocated `ChainMap` reference: the chainmap object and all
its underlying maps are allocated dicts. -/
def Heap.chainRef (h : Heap) (a : Nat) : Prop :=
  a < h.next ∧ (h.get a).isChain = true ∧ ∀ m ∈ h.chainMaps a, h.dictRef m

/-- A valid (possibly absent) scope-tree node reference. -/
def Heap.scopeRef (h : Heap) : Option Nat → Prop
  | none => True
  | some p => p < h.next ∧ (h.get p).scopeOK h.next = true

/-- Well-formedness of a frame with respect to a heap: every mutable
field points at an allocated object of the right Python type. -/
def ContextLevel.wf (l : ContextLevel) (h : Heap) : Prop :=
  (l.aliases < h.next ∧ (h.get l.aliases).isAliasGen = true) ∧
  h.dictRef l.anchors ∧
  h.dictRef l.modaliases ∧
  h.dictRef l.arguments ∧
  l.all_sets < h.next ∧
  h.dictRef l.stmt_metadata ∧
  h.dictRef l.source_map ∧
  h.dictRef l.view_nodes ∧
  h.dictRef l.view_sets ∧
  h.chainRef l.aliased_views ∧
  h.dictRef l.view_class_map ∧
  h.dictRef l.class_view_overrides ∧
  (l.singletons < h.next ∧ (h.get l.singletons).isPSet = true) ∧
  h.chainRef l.view_map ∧
  h.dictRef l.class_shapes ∧
  h.scopeRef l.path_scope ∧
  h.dictRef l.path_scope_map ∧
  l.scope_id_ctr < h.next

instance (h : Heap) (a : Nat) : Decidable (h.dictRef a) := by
  unfold Heap.dictRef
  exact inferInstance

instance (h : Heap) (a : Nat) : Decidable (h.chainRef a) := by
  unfold Heap.chainRef
  exact inferInstance

instance (h : Heap) (o : Option Nat) : Decidable (h.scopeRef o) :=
  match o with
  | none => isTrue trivial
  | some p => by
      unfold Heap.scopeRef
      exact inferInstance

instance (l : ContextLevel) (h : Heap) : Decidable (l.wf h) := by
  unfold ContextLevel.wf
  exact inferInstance

/-! ### A concrete compilation root (used for witnesses and
counterexamples) -/

/-- The root frame of a fresh compilation over the empty heap. -/
def L0 : ContextLevel := (ContextLevel.initRoot Heap.empty).1

/-- The heap after constructing `L0`. -/
def HR : Heap := (ContextLevel.initRoot Heap.empty).2

example : L0.wf HR := by decide

/-! ### Heap-operation lemmas -/

theorem Heap.clone_fst (h : Heap) (a : Nat) : (h.clone a).1 = h.next := rfl

theorem Heap.clone_next (h : Heap) (a : Nat) : (h.clone a).2.next = h.next + 1 := rfl

theorem Heap.clone_get_of_lt (h : Heap) (a b : Nat) (hb : b < h.next) :
    (h.clone a).2.get b = h.get b :=
  h.get_alloc_of_lt _ b hb

theorem Heap.clone_get_self (h : Heap) (a : Nat) :
    (h.clone a).2.get h.next = h.get a :=
  h.get_alloc_self _

theorem Heap.newChild_next (h : Heap) (a : Nat) :
    (h.newChild a).2.next = h.next + 2 := rfl

theorem Heap.newChild_get_of_lt (h : Heap) (a b : Nat) (hb : b < h.next) :
    (h.newChild a).2.get b = h.get b := by
  unfold Heap.newChild
  rw [Heap.get_alloc_of_lt, Heap.get_alloc_of_lt _ _ _ hb]
  simp
  omega

theorem Heap.newChainMap_next (h : Heap) :
    h.newChainMap.2.next = h.next + 2 := rfl

theorem Heap.newChainMap_get_of_lt (h : Heap) (b : Nat) (hb : b < h.next) :
    h.newChainMap.2.get b = h.get b := by
  unfold Heap.newChainMap
  rw [Heap.get_alloc_of_lt, Heap.get_alloc_of_lt _ _ _ hb]
  simp
  omega

theorem Heap.aliasGet_next (h : Heap) (a : Nat) (pfx : String) :
    (h.aliasGet a pfx).2.next = h.next := by
  unfold Heap.aliasGet
  cases h.get a <;> simp

theorem Heap.aliasGet_get_of_ne (h : Heap) (a b : Nat) (pfx : String)
    (hne : b ≠ a) : (h.aliasGet a pfx).2.get b = h.get b := by
  unfold Heap.aliasGet
  cases h.get a <;> simp [Heap.get_set_of_ne _ _ _ _ hne]

theorem Heap.dictInsert_next (h : Heap) (a k v : Nat) :
    (h.dictInsert a k v).next = h.next := by
  unfold Heap.dictInsert
  cases h.get a <;> simp

theorem Heap.dictInsert_get_of_ne (h : Heap) (a k v b : Nat) (hne : b ≠ a) :
    (h.dictInsert a k v).get b = h.get b := by
  unfold Heap.dictInsert
  cases h.get a <;> simp [Heap.get_set_of_ne _ _ _ _ hne]

theorem Heap.setInsert_next (h : Heap) (a x : Nat) :
    (h.setInsert a x).next = h.next := by
  unfold Heap.setInsert
  cases h.get a <;> simp

theorem Heap.setInsert_get_of_ne (h : Heap) (a x b : Nat) (hne : b ≠ a) :
    (h.setInsert a x).get b = h.get b := by
  unfold Heap.setInsert
  cases h.get a <;> simp [Heap.get_set_of_ne _ _ _ _ hne]

theorem Heap.dictContents_eq_of_get_eq (h h' : Heap) (a b : Nat)
    (he : h'.get a = h.get b) : h'.dictContents a = h.dictContents b := by
  unfold Heap.dictContents
  rw [he]

theorem Heap.setContents_eq_of_get_eq (h h' : Heap) (a b : Nat)
    (he : h'.get a = h.get b) : h'.setContents a = h.setContents b := by
  unfold Heap.setContents
  rw [he]

/-- Chain lookup only depends on the contents of the maps traversed. -/
theorem chainFind_congr (h h' : Heap) (ms : List Nat) (k : Nat)
    (he : ∀ m ∈ ms, h'.get m = h.get m) :
    chainFind h' ms k = chainFind h ms k := by
  induction ms with
  | nil => rfl
  | cons m rest ih =>
    unfold chainFind
    rw [Heap.dictContents_eq_of_get_eq h h' m m (he m (by simp))]
    have := ih (fun x hx => he x (by simp [hx]))
    cases dictFind (h.dictContents m) k <;> simp [this]

/-! ### Characterization of the `SUBQUERY` transition -/

theorem subquery_heap_eq (prev : ContextLevel) (h : Heap) :
    (ContextLevel.initChild prev .SUBQUERY h).2.2 =
      ((((((h.clone prev.anchors).2.clone prev.modaliases).2.newChild
          prev.aliased_views).2.clone prev.view_class_map).2.clone
          prev.class_view_overrides).2.clone prev.singletons).2 := rfl

theorem subquery_child_eq (prev : ContextLevel) (h : Heap) :
    (ContextLevel.initChild prev .SUBQUERY h).1 =
      { prev with
        mode := .SUBQUERY
      , anchors := h.next
      , modaliases := h.next + 1
      , aliased_views := h.next + 3
      , view_class_map := h.next + 4
      , class_view_overrides := h.next + 5
      , singletons := h.next + 6
      , pending_stmt_path_id_namespace := none
      , view_rptr := none
      , view_scls := none
      , clause := none
      , stmt := none
      , in_aggregate := false
      , path_as_type := false
      , partial_path_pref := none
      , toplevel_result_view_name := none } := rfl

theorem subquery_prev_eq (prev : ContextLevel) (h : Heap) :
    (ContextLevel.initChild prev .SUBQUERY h).2.1 = prev := rfl

theorem subquery_next (prev : ContextLevel) (h : Heap) :
    (ContextLevel.initChild prev .SUBQUERY h).2.2.next = h.next + 7 := rfl

theorem subquery_get_of_lt (prev : ContextLevel) (h : Heap) (b : Nat)
    (hb : b < h.next) :
    (ContextLevel.initChild prev .SUBQUERY h).2.2.get b = h.get b := by
  rw [subquery_heap_eq, Heap.clone_get_of_lt, Heap.clone_get_of_lt,
    Heap.clone_get_of_lt, Heap.newChild_get_of_lt, Heap.clone_get_of_lt,
    Heap.clone_get_of_lt _ _ _ hb] <;>
    simp [Heap.clone_next, Heap.newChild_next] <;> omega

theorem subquery_get_anchors (prev : ContextLevel) (h : Heap) :
    (ContextLevel.initChild prev .SUBQUERY h).2.2.get h.next =
      h.get prev.anchors := by
  rw [subquery_heap_eq, Heap.clone_get_of_lt, Heap.clone_get_of_lt,
    Heap.clone_get_of_lt, Heap.newChild_get_of_lt, Heap.clone_get_of_lt,
    Heap.clone_get_self] <;>
    simp [Heap.clone_next, Heap.newChild_next] <;> omega

theorem subquery_get_modaliases (prev : ContextLevel) (h : Heap)
    (hm : prev.modaliases < h.next) :
    (ContextLevel.initChild prev .SUBQUERY h).2.2.get (h.next + 1) =
      h.get prev.modaliases := by
  rw [subquery_heap_eq, Heap.clone_get_of_lt, Heap.clone_get_of_lt,
    Heap.clone_get_of_lt, Heap.newChild_get_of_lt]
  case hb => simp [Heap.clone_next]
  case hb => simp [Heap.clone_next, Heap.newChild_next]
  case hb => simp [Heap.clone_next, Heap.newChild_next]
  case hb => simp [Heap.clone_next, Heap.newChild_next]
  have e1 : (h.clone prev.anchors).2.next = h.next + 1 := rfl
  rw [← e1, Heap.clone_get_self, Heap.clone_get_of_lt _ _ _ hm]

theorem subquery_get_front_dict (prev : ContextLevel) (h : Heap) :
    (ContextLevel.initChild prev .SUBQUERY h).2.2.get (h.next + 2) =
      .dict [] := by
  rw [subquery_heap_eq, Heap.clone_get_of_lt, Heap.clone_get_of_lt,
    Heap.clone_get_of_lt]
  case hb => simp [Heap.clone_next, Heap.newChild_next]
  case hb => simp [Heap.clone_next, Heap.newChild_next]
  case hb => simp [Heap.clone_next, Heap.newChild_next]
  show ((((h.clone prev.anchors).2.clone
      prev.modaliases).2.alloc (.dict [])).2.alloc _).2.get (h.next + 2) = _
  rw [Heap.get_alloc_of_lt]
  case hb => simp [Heap.clone_next]
  have e1 : ((h.clone prev.anchors).2.clone prev.modaliases).2.next =
      h.next + 2 := rfl
  rw [← e1, Heap.get_alloc_self]

theorem subquery_get_aliased_views (prev : ContextLevel) (h : Heap)
    (ha : prev.aliased_views < h.next) :
    (ContextLevel.initChild prev .SUBQUERY h).2.2.get (h.next + 3) =
      .chainmap ((h.next + 2) :: h.chainMaps prev.aliased_views) := by
  rw [subquery_heap_eq, Heap.clone_get_of_lt, Heap.clone_get_of_lt,
    Heap.clone_get_of_lt]
  case hb => simp [Heap.clone_next, Heap.newChild_next]
  case hb => simp [Heap.clone_next, Heap.newChild_next]
  case hb => simp [Heap.clone_next, Heap.newChild_next]
  show ((((h.clone prev.anchors).2.clone
      prev.modaliases).2.alloc (.dict [])).2.alloc
      (.chainmap (((h.clone prev.anchors).2.clone prev.modaliases).2.next ::
        ((((h.clone prev.anchors).2.clone prev.modaliases).2.alloc
          (.dict [])).2.chainMaps prev.aliased_views)))).2.get (h.next + 3) = _
  have e1 : (((h.clone prev.anchors).2.clone
      prev.modaliases).2.alloc (Obj.dict [])).2.next = h.next + 3 := rfl
  rw [← e1, Heap.get_alloc_self]
  unfold Heap.chainMaps
  rw [Heap.get_alloc_of_lt, Heap.clone_get_of_lt, Heap.clone_get_of_lt _ _ _ ha]
  case hb => simp [Heap.clone_next]; omega
  case hb => simp [Heap.clone_next]; omega
  simp [Heap.clone_next]

theorem subquery_get_view_class_map (prev : ContextLevel) (h : Heap)
    (hv : prev.view_class_map < h.next) :
    (ContextLevel.initChild prev .SUBQUERY h).2.2.get (h.next + 4) =
      h.get prev.view_class_map := by
  rw [subquery_heap_eq, Heap.clone_get_of_lt, Heap.clone_get_of_lt]
  case hb => simp [Heap.clone_next, Heap.newChild_next]
  case hb => simp [Heap.clone_next, Heap.newChild_next]
  have e1 : (((h.clone prev.anchors).2.clone
      prev.modaliases).2.newChild prev.aliased_views).2.next = h.next + 4 := rfl
  rw [← e1, Heap.clone_get_self, Heap.newChild_get_of_lt, Heap.clone_get_of_lt,
    Heap.clone_get_of_lt _ _ _ hv]
  case hb => simp [Heap.clone_next]; omega
  case hb => simp [Heap.clone_next]; omega

theorem subquery_get_class_view_overrides (prev : ContextLevel) (h : Heap)
    (hv : prev.class_view_overrides < h.next) :
    (ContextLevel.initChild prev .SUBQUERY h).2.2.get (h.next + 5) =
      h.get prev.class_view_overrides := by
  rw [subquery_heap_eq, Heap.clone_get_of_lt]
  case hb => simp [Heap.clone_next, Heap.newChild_next]
  have e1 : ((((h.clone prev.anchors).2.clone
      prev.modaliases).2.newChild prev.aliased_views).2.clone
        prev.view_class_map).2.next = h.next + 5 := rfl
  rw [← e1, Heap.clone_get_self, Heap.clone_get_of_lt, Heap.newChild_get_of_lt,
    Heap.clone_get_of_lt, Heap.clone_get_of_lt _ _ _ hv]
  case hb => simp [Heap.clone_next]; omega
  case hb => simp [Heap.clone_next]; omega
  case hb => simp [Heap.clone_next, Heap.newChild_next]; omega

theorem subquery_get_singletons (prev : ContextLevel) (h : Heap)
    (hs : prev.singletons < h.next) :
    (ContextLevel.initChild prev .SUBQUERY h).2.2.get (h.next + 6) =
      h.get prev.singletons := by
  rw [subquery_heap_eq]
  have e1 : (((((h.clone prev.anchors).2.clone
      prev.modaliases).2.newChild prev.aliased_views).2.clone
        prev.view_class_map).2.clone prev.class_view_overrides).2.next =
      h.next + 6 := rfl
  rw [← e1, Heap.clone_get_self, Heap.clone_get_of_lt, Heap.clone_get_of_lt,
    Heap.newChild_get_of_lt, Heap.clone_get_of_lt, Heap.clone_get_of_lt _ _ _ hs]
  case hb => simp [Heap.clone_next]; omega
  case hb => simp [Heap.clone_next]; omega
  case hb => simp [Heap.clone_next, Heap.newChild_next]; omega
  case hb => simp [Heap.clone_next, Heap.newChild_next]; omega

/-! ### Characterization of the `DETACHED` transition -/

/-- The heap after the eight allocations of the `DETACHED` branch that
precede the `aliases.get('ns')` call (context.py lines 267-275). -/
def detachedPre (prev : ContextLevel) (h : Heap) : Heap :=
  (((((((h.clone prev.anchors).2.clone
    prev.modaliases).2.newChainMap.2.alloc
    (.dict [])).2.alloc (.dict [])).2.alloc (.dict [])).2.alloc
    (.dict [])).2.alloc (.dict [])).2

theorem detached_heap_eq (prev : ContextLevel) (h : Heap) :
    (ContextLevel.initChild prev .DETACHED h).2.2 =
      (((detachedPre prev h).aliasGet prev.aliases "ns").2.alloc
        (.pset [])).2 := rfl

theorem detachedPre_next (prev : ContextLevel) (h : Heap) :
    (detachedPre prev h).next = h.next + 9 := rfl

theorem detached_next (prev : ContextLevel) (h : Heap) :
    (ContextLevel.initChild prev .DETACHED h).2.2.next = h.next + 10 := by
  rw [detached_heap_eq]
  show ((((detachedPre prev h).aliasGet prev.aliases "ns").2.alloc
    (.pset [])).2).next = h.next + 10
  rw [Heap.alloc_next, Heap.aliasGet_next, detachedPre_next]

theorem detached_prev_eq (prev : ContextLevel) (h : Heap) :
    (ContextLevel.initChild prev .DETACHED h).2.1 = prev := rfl

theorem detachedPre_get_of_lt (prev : ContextLevel) (h : Heap) (b : Nat)
    (hb : b < h.next) :
    (detachedPre prev h).get b = h.get b := by
  unfold detachedPre
  rw [Heap.get_alloc_of_lt, Heap.get_alloc_of_lt, Heap.get_alloc_of_lt,
    Heap.get_alloc_of_lt, Heap.get_alloc_of_lt, Heap.newChainMap_get_of_lt,
    Heap.clone_get_of_lt, Heap.clone_get_of_lt _ _ _ hb] <;>
    simp [Heap.clone_next, Heap.newChainMap_next] <;> omega

theorem detached_get_of_lt_of_ne (prev : ContextLevel) (h : Heap) (b : Nat)
    (hb : b < h.next) (hne : b ≠ prev.aliases) :
    (ContextLevel.initChild prev .DETACHED h).2.2.get b = h.get b := by
  rw [detached_heap_eq, Heap.get_alloc_of_lt, Heap.aliasGet_get_of_ne _ _ _ _ hne,
    detachedPre_get_of_lt _ _ _ hb]
  rw [Heap.aliasGet_next, detachedPre_next]
  omega

theorem detached_get_aliases (prev : ContextLevel) (h : Heap) (n : Nat)
    (hlt : prev.aliases < h.next) (hg : h.get prev.aliases = .aliasgen n) :
    (ContextLevel.initChild prev .DETACHED h).2.2.get prev.aliases =
      .aliasgen (n + 1) := by
  rw [detached_heap_eq, Heap.get_alloc_of_lt]
  case hb =>
    rw [Heap.aliasGet_next, detachedPre_next]
    omega
  unfold Heap.aliasGet
  rw [detachedPre_get_of_lt _ _ _ hlt, hg]
  simp

theorem detached_path_id_namespace (prev : ContextLevel) (h : Heap) (n : Nat)
    (hlt : prev.aliases < h.next) (hg : h.get prev.aliases = .aliasgen n) :
    (ContextLevel.initChild prev .DETACHED h).1.path_id_namespace =
      ["ns" ++ "~" ++ Nat.repr n] := by
  show [((detachedPre prev h).aliasGet prev.aliases "ns").1] = _
  unfold Heap.aliasGet
  rw [detachedPre_get_of_lt _ _ _ hlt, hg]


theorem detached_child_addrs (prev : ContextLevel) (h : Heap) :
    (ContextLevel.initChild prev .DETACHED h).1.anchors = h.next ∧
    (ContextLevel.initChild prev .DETACHED h).1.modaliases = h.next + 1 ∧
    (ContextLevel.initChild prev .DETACHED h).1.aliased_views = h.next + 3 ∧
    (ContextLevel.initChild prev .DETACHED h).1.view_class_map = h.next + 4 ∧
    (ContextLevel.initChild prev .DETACHED h).1.class_view_overrides = h.next + 5 ∧
    (ContextLevel.initChild prev .DETACHED h).1.source_map = h.next + 6 ∧
    (ContextLevel.initChild prev .DETACHED h).1.view_nodes = h.next + 7 ∧
    (ContextLevel.initChild prev .DETACHED h).1.view_sets = h.next + 8 := by
  refine ⟨rfl, rfl, rfl, rfl, rfl, rfl, rfl, rfl⟩

theorem detached_child_singletons (prev : ContextLevel) (h : Heap) :
    (ContextLevel.initChild prev .DETACHED h).1.singletons = h.next + 9 := by
  show (((detachedPre prev h).aliasGet prev.aliases "ns").2.alloc
    (.pset [])).1 = h.next + 9
  rw [Heap.alloc_fst, Heap.aliasGet_next, detachedPre_next]

theorem detachedPre_get_anchors (prev : ContextLevel) (h : Heap) :
    (detachedPre prev h).get h.next = h.get prev.anchors := by
  unfold detachedPre
  rw [Heap.get_alloc_of_lt, Heap.get_alloc_of_lt, Heap.get_alloc_of_lt,
    Heap.get_alloc_of_lt, Heap.get_alloc_of_lt, Heap.newChainMap_get_of_lt,
    Heap.clone_get_of_lt, Heap.clone_get_self]
  all_goals simp only [Heap.clone_next, Heap.newChainMap_next, Heap.alloc_next]
  all_goals omega

theorem detachedPre_get_modaliases (prev : ContextLevel) (h : Heap)
    (hm : prev.modaliases < h.next) :
    (detachedPre prev h).get (h.next + 1) = h.get prev.modaliases := by
  unfold detachedPre
  have e1 : (h.clone prev.anchors).2.next = h.next + 1 := rfl
  rw [Heap.get_alloc_of_lt, Heap.get_alloc_of_lt, Heap.get_alloc_of_lt,
    Heap.get_alloc_of_lt, Heap.get_alloc_of_lt, Heap.newChainMap_get_of_lt,
    ← e1, Heap.clone_get_self, Heap.clone_get_of_lt _ _ _ hm]
  all_goals simp only [Heap.clone_next, Heap.newChainMap_next, Heap.alloc_next]
  all_goals omega

theorem detachedPre_get_front_dict (prev : ContextLevel) (h : Heap) :
    (detachedPre prev h).get (h.next + 2) = .dict [] := by
  unfold detachedPre Heap.newChainMap
  have e1 : ((h.clone prev.anchors).2.clone prev.modaliases).2.next =
      h.next + 2 := rfl
  rw [Heap.get_alloc_of_lt, Heap.get_alloc_of_lt, Heap.get_alloc_of_lt,
    Heap.get_alloc_of_lt, Heap.get_alloc_of_lt, Heap.get_alloc_of_lt,
    ← e1, Heap.get_alloc_self]
  all_goals simp only [Heap.clone_next, Heap.newChainMap_next, Heap.alloc_next,
    Heap.set_next]
  all_goals omega

theorem detachedPre_get_chain (prev : ContextLevel) (h : Heap) :
    (detachedPre prev h).get (h.next + 3) = .chainmap [h.next + 2] := by
  unfold detachedPre Heap.newChainMap
  have e1 : (((h.clone prev.anchors).2.clone prev.modaliases).2.alloc
      (Obj.dict [])).2.next = h.next + 3 := rfl
  rw [Heap.get_alloc_of_lt, Heap.get_alloc_of_lt, Heap.get_alloc_of_lt,
    Heap.get_alloc_of_lt, Heap.get_alloc_of_lt, ← e1, Heap.get_alloc_self]
  all_goals simp only [Heap.clone_next, Heap.newChainMap_next, Heap.alloc_next,
    Heap.alloc_fst, Obj.chainmap.injEq, List.cons.injEq, and_true]
  all_goals omega

theorem detachedPre_get_vcm (prev : ContextLevel) (h : Heap) :
    (detachedPre prev h).get (h.next + 4) = .dict [] := by
  unfold detachedPre
  have e1 : ((h.clone prev.anchors).2.clone
      prev.modaliases).2.newChainMap.2.next = h.next + 4 := rfl
  rw [Heap.get_alloc_of_lt, Heap.get_alloc_of_lt, Heap.get_alloc_of_lt,
    Heap.get_alloc_of_lt, ← e1, Heap.get_alloc_self]
  all_goals simp only [Heap.clone_next, Heap.newChainMap_next, Heap.alloc_next]
  all_goals omega

theorem detachedPre_get_cvo (prev : ContextLevel) (h : Heap) :
    (detachedPre prev h).get (h.next + 5) = .dict [] := by
  unfold detachedPre
  have e1 : (((h.clone prev.anchors).2.clone
      prev.modaliases).2.newChainMap.2.alloc (Obj.dict [])).2.next =
      h.next + 5 := rfl
  rw [Heap.get_alloc_of_lt, Heap.get_alloc_of_lt, Heap.get_alloc_of_lt,
    ← e1, Heap.get_alloc_self]
  all_goals simp only [Heap.clone_next, Heap.newChainMap_next, Heap.alloc_next]
  all_goals omega

theorem detachedPre_get_source_map (prev : ContextLevel) (h : Heap) :
    (detachedPre prev h).get (h.next + 6) = .dict [] := by
  unfold detachedPre
  have e1 : ((((h.clone prev.anchors).2.clone
      prev.modaliases).2.newChainMap.2.alloc (Obj.dict [])).2.alloc
      (Obj.dict [])).2.next = h.next + 6 := rfl
  rw [Heap.get_alloc_of_lt, Heap.get_alloc_of_lt, ← e1, Heap.get_alloc_self]
  all_goals simp only [Heap.clone_next, Heap.newChainMap_next, Heap.alloc_next]
  all_goals omega

theorem detachedPre_get_view_nodes (prev : ContextLevel) (h : Heap) :
    (detachedPre prev h).get (h.next + 7) = .dict [] := by
  unfold detachedPre
  have e1 : (((((h.clone prev.anchors).2.clone
      prev.modaliases).2.newChainMap.2.alloc (Obj.dict [])).2.alloc
      (Obj.dict [])).2.alloc (Obj.dict [])).2.next = h.next + 7 := rfl
  rw [Heap.get_alloc_of_lt, ← e1, Heap.get_alloc_self]
  all_goals simp only [Heap.clone_next, Heap.newChainMap_next, Heap.alloc_next]
  all_goals omega

theorem detachedPre_get_view_sets (prev : ContextLevel) (h : Heap) :
    (detachedPre prev h).get (h.next + 8) = .dict [] := by
  unfold detachedPre
  have e1 : ((((((h.clone prev.anchors).2.clone
      prev.modaliases).2.newChainMap.2.alloc (Obj.dict [])).2.alloc
      (Obj.dict [])).2.alloc (Obj.dict [])).2.alloc (Obj.dict [])).2.next =
      h.next + 8 := rfl
  rw [← e1, Heap.get_alloc_self]

theorem detached_get_new (prev : ContextLevel) (h : Heap) (k : Nat)
    (hk : k < 9) (halias : prev.aliases < h.next) :
    (ContextLevel.initChild prev .DETACHED h).2.2.get (h.next + k) =
      (detachedPre prev h).get (h.next + k) := by
  rw [detached_heap_eq, Heap.get_alloc_of_lt, Heap.aliasGet_get_of_ne]
  · omega
  · rw [Heap.aliasGet_next, detachedPre_next]
    omega

theorem detached_get_singletons (prev : ContextLevel) (h : Heap) :
    (ContextLevel.initChild prev .DETACHED h).2.2.get (h.next + 9) =
      .pset [] := by
  rw [detached_heap_eq]
  have e1 : ((detachedPre prev h).aliasGet prev.aliases "ns").2.next =
      h.next + 9 := by
    rw [Heap.aliasGet_next, detachedPre_next]
  rw [← e1, Heap.get_alloc_self]

/-! ### Claims -/

/-- Claim C9: for every push, the child's `view_rptr` (the
pointer-binding descriptor) is reset to absent (`None`) on a `SUBQUERY`
or `DETACHED` transition, and is the parent's same reference on every
other non-`NEW` transition. -/
theorem claim_C9_view_rptr_policy (prev : ContextLevel) (h : Heap) :
    (ContextLevel.initChild prev .SUBQUERY h).1.view_rptr = none ∧
    (ContextLevel.initChild prev .DETACHED h).1.view_rptr = none ∧
    (ContextLevel.initChild prev .NEWSCOPE h).1.view_rptr = prev.view_rptr ∧
    (ContextLevel.initChild prev .NEWSCOPE_TEMP h).1.view_rptr = prev.view_rptr ∧
    (ContextLevel.initChild prev .NEWFENCE h).1.view_rptr = prev.view_rptr ∧
    (ContextLevel.initChild prev .NEWFENCE_TEMP h).1.view_rptr = prev.view_rptr := by
  refine ⟨rfl, rfl, rfl, ?_, ?_, ?_⟩ <;>
    cases hps : prev.path_scope <;> simp [ContextLevel.initChild, hps]

/-- Claim C10: for every push, the child's
`pending_stmt_path_id_namespace` is reset to `None` on a `SUBQUERY` or
`DETACHED` transition and inherited unchanged from the parent on every
other non-`NEW` transition. -/
theorem claim_C10_pending_ns_policy (prev : ContextLevel) (h : Heap) :
    (ContextLevel.initChild prev .SUBQUERY h).1.pending_stmt_path_id_namespace
      = none ∧
    (ContextLevel.initChild prev .DETACHED h).1.pending_stmt_path_id_namespace
      = none ∧
    (ContextLevel.initChild prev .NEWSCOPE h).1.pending_stmt_path_id_namespace
      = prev.pending_stmt_path_id_namespace ∧
    (ContextLevel.initChild prev .NEWSCOPE_TEMP h).1.pending_stmt_path_id_namespace
      = prev.pending_stmt_path_id_namespace ∧
    (ContextLevel.initChild prev .NEWFENCE h).1.pending_stmt_path_id_namespace
      = prev.pending_stmt_path_id_namespace ∧
    (ContextLevel.initChild prev .NEWFENCE_TEMP h).1.pending_stmt_path_id_namespace
      = prev.pending_stmt_path_id_namespace := by
  refine ⟨rfl, rfl, rfl, ?_, ?_, ?_⟩ <;>
    cases hps : prev.path_scope <;> simp [ContextLevel.initChild, hps]

/-- Claim C7: for every push, the child's `singletons` field obeys: on
`SUBQUERY` it is a copy of the parent's set (equal contents but a
distinct object, so later insertions in the child are invisible to the
parent); on `DETACHED` it is reset to the empty set; on every other
non-`NEW` transition it is the very same set object as the parent's. -/
theorem claim_C7_singletons_policy (prev : ContextLevel) (h : Heap)
    (hwf : prev.wf h) :
    ((ContextLevel.initChild prev .SUBQUERY h).1.singletons
      ≠ prev.singletons) ∧
    ((ContextLevel.initChild prev .SUBQUERY h).2.2.setContents
      ((ContextLevel.initChild prev .SUBQUERY h).1.singletons)
      = h.setContents prev.singletons) ∧
    (∀ x, (((ContextLevel.initChild prev .SUBQUERY h).2.2.setInsert
      ((ContextLevel.initChild prev .SUBQUERY h).1.singletons) x).setContents
      prev.singletons) = h.setContents prev.singletons) ∧
    ((ContextLevel.initChild prev .DETACHED h).2.2.setContents
      ((ContextLevel.initChild prev .DETACHED h).1.singletons) = []) ∧
    ((ContextLevel.initChild prev .NEWSCOPE h).1.singletons
      = prev.singletons) ∧
    ((ContextLevel.initChild prev .NEWSCOPE_TEMP h).1.singletons
      = prev.singletons) ∧
    ((ContextLevel.initChild prev .NEWFENCE h).1.singletons
      = prev.singletons) ∧
    ((ContextLevel.initChild prev .NEWFENCE_TEMP h).1.singletons
      = prev.singletons) := by
  obtain ⟨hal, han, hmo, harg, hall, hsm, hso, hvn, hvs, hav, hvc, hco,
    hsg, hvm, hcs, hps, hpm, hsc⟩ := hwf
  refine ⟨?_, ?_, ?_, ?_, rfl, ?_, ?_, ?_⟩
  · rw [subquery_child_eq]
    show h.next + 6 ≠ prev.singletons
    omega
  · rw [subquery_child_eq]
    exact Heap.setContents_eq_of_get_eq _ _ _ _
      (subquery_get_singletons prev h hsg.1)
  · intro x
    rw [subquery_child_eq]
    show ((ContextLevel.initChild prev .SUBQUERY h).2.2.setInsert
      (h.next + 6) x).setContents prev.singletons = _
    refine Heap.setContents_eq_of_get_eq _ _ _ _ ?_
    rw [Heap.setInsert_get_of_ne _ _ _ _ (by omega : prev.singletons ≠ h.next + 6)]
    exact subquery_get_of_lt prev h _ hsg.1
  · rw [detached_child_singletons]
    unfold Heap.setContents
    rw [detached_get_singletons]
  · cases hpsc : prev.path_scope <;> simp [ContextLevel.initChild, hpsc]
  · cases hpsc : prev.path_scope <;> simp [ContextLevel.initChild, hpsc]
  · cases hpsc : prev.path_scope <;> simp [ContextLevel.initChild, hpsc]

/-- Witness for claim C7 at the concrete compilation root: inserting
`5` into the subquery child's singleton set is invisible through the
parent's set. -/
theorem claim_C7_singletons_policy_witness :
    L0.wf HR ∧
    (((ContextLevel.initChild L0 .SUBQUERY HR).2.2.setInsert
      ((ContextLevel.initChild L0 .SUBQUERY HR).1.singletons) 5).setContents
      L0.singletons) = HR.setContents L0.singletons :=
  ⟨by decide, (claim_C7_singletons_policy L0 HR (by decide)).2.2.1 5⟩

theorem Heap.chainMaps_eq_of_get_eq (h h' : Heap) (a b : Nat)
    (he : h'.get a = h.get b) : h'.chainMaps a = h.chainMaps b := by
  unfold Heap.chainMaps
  rw [he]

/-- Claim C3: for every `SUBQUERY` push, mutating a copy-class field of
the child level after the push (adding a key to the child's `anchors`,
`modaliases`, `aliased_views`, `view_class_map`, or
`class_view_overrides`) leaves the parent level's corresponding field
unchanged when inspected after the matching pop. -/
theorem claim_C3_subquery_mutation_isolation (prev : ContextLevel) (h : Heap)
    (hwf : prev.wf h) (k v : Nat) :
    ((ContextLevel.initChild prev .SUBQUERY h).1.on_pop
      ((ContextLevel.initChild prev .SUBQUERY h).2.1)
      (((ContextLevel.initChild prev .SUBQUERY h).2.2).dictInsert
        ((ContextLevel.initChild prev .SUBQUERY h).1.anchors) k v)).dictContents
      prev.anchors = h.dictContents prev.anchors ∧
    ((ContextLevel.initChild prev .SUBQUERY h).1.on_pop
      ((ContextLevel.initChild prev .SUBQUERY h).2.1)
      (((ContextLevel.initChild prev .SUBQUERY h).2.2).dictInsert
        ((ContextLevel.initChild prev .SUBQUERY h).1.modaliases) k v)).dictContents
      prev.modaliases = h.dictContents prev.modaliases ∧
    (∀ q, ((ContextLevel.initChild prev .SUBQUERY h).1.on_pop
      ((ContextLevel.initChild prev .SUBQUERY h).2.1)
      (((ContextLevel.initChild prev .SUBQUERY h).2.2).chainInsert
        ((ContextLevel.initChild prev .SUBQUERY h).1.aliased_views) k v)).chainLookup
      prev.aliased_views q = h.chainLookup prev.aliased_views q) ∧
    ((ContextLevel.initChild prev .SUBQUERY h).1.on_pop
      ((ContextLevel.initChild prev .SUBQUERY h).2.1)
      (((ContextLevel.initChild prev .SUBQUERY h).2.2).dictInsert
        ((ContextLevel.initChild prev .SUBQUERY h).1.view_class_map) k v)).dictContents
      prev.view_class_map = h.dictContents prev.view_class_map ∧
    ((ContextLevel.initChild prev .SUBQUERY h).1.on_pop
      ((ContextLevel.initChild prev .SUBQUERY h).2.1)
      (((ContextLevel.initChild prev .SUBQUERY h).2.2).dictInsert
        ((ContextLevel.initChild prev .SUBQUERY h).1.class_view_overrides) k v)).dictContents
      prev.class_view_overrides = h.dictContents prev.class_view_overrides := by
  obtain ⟨hal, han, hmo, harg, hall, hsm, hso, hvn, hvs, hav, hvc, hco,
    hsg, hvm, hcs, hps, hpm, hsc⟩ := hwf
  have han1 := han.1
  have hmo1 := hmo.1
  have hav1 := hav.1
  have hvc1 := hvc.1
  have hco1 := hco.1
  rw [subquery_child_eq, subquery_prev_eq]
  have hpop : ∀ h' : Heap,
      (ContextLevel.on_pop { prev with
        mode := .SUBQUERY
      , anchors := h.next
      , modaliases := h.next + 1
      , aliased_views := h.next + 3
      , view_class_map := h.next + 4
      , class_view_overrides := h.next + 5
      , singletons := h.next + 6
      , pending_stmt_path_id_namespace := none
      , view_rptr := none
      , view_scls := none
      , clause := none
      , stmt := none
      , in_aggregate := false
      , path_as_type := false
      , partial_path_pref := none
      , toplevel_result_view_name := none } prev h') = h' := fun _ => rfl
  refine ⟨?_, ?_, ?_, ?_, ?_⟩
  · rw [hpop]
    refine Heap.dictContents_eq_of_get_eq _ _ _ _ ?_
    rw [Heap.dictInsert_get_of_ne _ _ _ _ _ (by omega : prev.anchors ≠ h.next)]
    exact subquery_get_of_lt prev h _ han.1
  · rw [hpop]
    refine Heap.dictContents_eq_of_get_eq _ _ _ _ ?_
    rw [Heap.dictInsert_get_of_ne _ _ _ _ _
      (by omega : prev.modaliases ≠ h.next + 1)]
    exact subquery_get_of_lt prev h _ hmo.1
  · intro q
    rw [hpop]
    unfold Heap.chainInsert
    rw [subquery_get_aliased_views prev h hav.1]
    show ((ContextLevel.initChild prev .SUBQUERY h).2.2.dictInsert
      (h.next + 2) k v).chainLookup prev.aliased_views q = _
    unfold Heap.chainLookup
    have hmaps : ((ContextLevel.initChild prev .SUBQUERY h).2.2.dictInsert
        (h.next + 2) k v).chainMaps prev.aliased_views =
        h.chainMaps prev.aliased_views := by
      refine Heap.chainMaps_eq_of_get_eq _ _ _ _ ?_
      rw [Heap.dictInsert_get_of_ne _ _ _ _ _
        (by omega : prev.aliased_views ≠ h.next + 2)]
      exact subquery_get_of_lt prev h _ hav.1
    rw [hmaps]
    refine chainFind_congr _ _ _ _ ?_
    intro m hm
    have hmlt : m < h.next := (hav.2.2 m hm).1
    rw [Heap.dictInsert_get_of_ne _ _ _ _ _ (by omega : m ≠ h.next + 2)]
    exact subquery_get_of_lt prev h _ hmlt
  · rw [hpop]
    refine Heap.dictContents_eq_of_get_eq _ _ _ _ ?_
    rw [Heap.dictInsert_get_of_ne _ _ _ _ _
      (by omega : prev.view_class_map ≠ h.next + 4)]
    exact subquery_get_of_lt prev h _ hvc.1
  · rw [hpop]
    refine Heap.dictContents_eq_of_get_eq _ _ _ _ ?_
    rw [Heap.dictInsert_get_of_ne _ _ _ _ _
      (by omega : prev.class_view_overrides ≠ h.next + 5)]
    exact subquery_get_of_lt prev h _ hco.1

/-- Witness for claim C3 at the concrete compilation root, inserting
key `1` with value `2` into the subquery child's anchors. -/
theorem claim_C3_subquery_mutation_isolation_witness :
    L0.wf HR ∧
    ((ContextLevel.initChild L0 .SUBQUERY HR).1.on_pop
      ((ContextLevel.initChild L0 .SUBQUERY HR).2.1)
      (((ContextLevel.initChild L0 .SUBQUERY HR).2.2).dictInsert
        ((ContextLevel.initChild L0 .SUBQUERY HR).1.anchors) 1 2)).dictContents
      L0.anchors = HR.dictContents L0.anchors :=
  ⟨by decide, (claim_C3_subquery_mutation_isolation L0 HR (by decide) 1 2).1⟩

theorem Obj.not_isDict_isAliasGen (o : Obj) :
    o.isDict = true → o.isAliasGen = true → False := by
  cases o <;> simp [Obj.isDict, Obj.isAliasGen]

theorem detached_get_mid (prev : ContextLevel) (h : Heap) (b : Nat)
    (hbl : h.next ≤ b) (hbu : b < h.next + 9)
    (halias : prev.aliases < h.next) :
    (ContextLevel.initChild prev .DETACHED h).2.2.get b =
      (detachedPre prev h).get b := by
  rw [detached_heap_eq, Heap.get_alloc_of_lt, Heap.aliasGet_get_of_ne]
  · omega
  · rw [Heap.aliasGet_next, detachedPre_next]
    omega

/-- Claim C4: for every `DETACHED` push: the child's alias generator and
schema are the identical objects as the parent's; the child's anchors
and modaliases are independent copies of the parent's with the same
contents (mutations of the child's copies are invisible to the parent);
the child's `view_nodes`, `view_sets` and `source_map` start empty; and
the child's `path_id_namespace` is a fresh one-element namespace holding
an identifier newly issued by the (shared) alias generator, whose
counter advances. -/
theorem claim_C4_detached_init (prev : ContextLevel) (h : Heap)
    (hwf : prev.wf h) (n : Nat) (hn : h.get prev.aliases = .aliasgen n) :
    ((ContextLevel.initChild prev .DETACHED h).1.aliases = prev.aliases) ∧
    ((ContextLevel.initChild prev .DETACHED h).1.schema = prev.schema) ∧
    ((ContextLevel.initChild prev .DETACHED h).1.anchors ≠ prev.anchors) ∧
    ((ContextLevel.initChild prev .DETACHED h).2.2.dictContents
      ((ContextLevel.initChild prev .DETACHED h).1.anchors)
      = h.dictContents prev.anchors) ∧
    (∀ k v, (((ContextLevel.initChild prev .DETACHED h).2.2.dictInsert
      ((ContextLevel.initChild prev .DETACHED h).1.anchors) k v).dictContents
      prev.anchors) = h.dictContents prev.anchors) ∧
    ((ContextLevel.initChild prev .DETACHED h).1.modaliases ≠ prev.modaliases) ∧
    ((ContextLevel.initChild prev .DETACHED h).2.2.dictContents
      ((ContextLevel.initChild prev .DETACHED h).1.modaliases)
      = h.dictContents prev.modaliases) ∧
    (∀ k v, (((ContextLevel.initChild prev .DETACHED h).2.2.dictInsert
      ((ContextLevel.initChild prev .DETACHED h).1.modaliases) k v).dictContents
      prev.modaliases) = h.dictContents prev.modaliases) ∧
    ((ContextLevel.initChild prev .DETACHED h).2.2.dictContents
      ((ContextLevel.initChild prev .DETACHED h).1.view_nodes) = []) ∧
    ((ContextLevel.initChild prev .DETACHED h).2.2.dictContents
      ((ContextLevel.initChild prev .DETACHED h).1.view_sets) = []) ∧
    ((ContextLevel.initChild prev .DETACHED h).2.2.dictContents
      ((ContextLevel.initChild prev .DETACHED h).1.source_map) = []) ∧
    ((ContextLevel.initChild prev .DETACHED h).1.path_id_namespace
      = ["ns" ++ "~" ++ Nat.repr n]) ∧
    ((ContextLevel.initChild prev .DETACHED h).2.2.get prev.aliases
      = .aliasgen (n + 1)) := by
  obtain ⟨hal, han, hmo, harg, hall, hsm, hso, hvn, hvs, hav, hvc, hco,
    hsg, hvm, hcs, hps, hpm, hsc⟩ := hwf
  have hal1 := hal.1
  have han1 := han.1
  have hmo1 := hmo.1
  have hanals : prev.anchors ≠ prev.aliases := by
    intro e
    rw [e] at han
    exact Obj.not_isDict_isAliasGen _ han.2 hal.2
  have hmoals : prev.modaliases ≠ prev.aliases := by
    intro e
    rw [e] at hmo
    exact Obj.not_isDict_isAliasGen _ hmo.2 hal.2
  obtain ⟨ean, emo, eav, evc, eco, eso, evn, evs⟩ := detached_child_addrs prev h
  refine ⟨rfl, rfl, ?_, ?_, ?_, ?_, ?_, ?_, ?_, ?_, ?_, ?_, ?_⟩
  · rw [ean]; omega
  · rw [ean]
    refine Heap.dictContents_eq_of_get_eq _ _ _ _ ?_
    rw [detached_get_mid prev h h.next (by omega) (by omega) hal1]
    exact detachedPre_get_anchors prev h
  · intro k v
    rw [ean]
    refine Heap.dictContents_eq_of_get_eq _ _ _ _ ?_
    rw [Heap.dictInsert_get_of_ne _ _ _ _ _ (by omega : prev.anchors ≠ h.next)]
    exact detached_get_of_lt_of_ne prev h _ han1 hanals
  · rw [emo]; omega
  · rw [emo]
    refine Heap.dictContents_eq_of_get_eq _ _ _ _ ?_
    rw [detached_get_mid prev h (h.next + 1) (by omega) (by omega) hal1]
    exact detachedPre_get_modaliases prev h hmo1
  · intro k v
    rw [emo]
    refine Heap.dictContents_eq_of_get_eq _ _ _ _ ?_
    rw [Heap.dictInsert_get_of_ne _ _ _ _ _
      (by omega : prev.modaliases ≠ h.next + 1)]
    exact detached_get_of_lt_of_ne prev h _ hmo1 hmoals
  · rw [evn]
    unfold Heap.dictContents
    rw [detached_get_mid prev h (h.next + 7) (by omega) (by omega) hal1,
      detachedPre_get_view_nodes]
  · rw [evs]
    unfold Heap.dictContents
    rw [detached_get_mid prev h (h.next + 8) (by omega) (by omega) hal1,
      detachedPre_get_view_sets]
  · rw [eso]
    unfold Heap.dictContents
    rw [detached_get_mid prev h (h.next + 6) (by omega) (by omega) hal1,
      detachedPre_get_source_map]
  · exact detached_path_id_namespace prev h n hal1 hn
  · exact detached_get_aliases prev h n hal1 hn

/-- Witness for claim C4 at the concrete compilation root (whose alias
generator is at sequence number 0). -/
theorem claim_C4_detached_init_witness :
    (L0.wf HR ∧ HR.get L0.aliases = .aliasgen 0) ∧
    ((ContextLevel.initChild L0 .DETACHED HR).1.path_id_namespace
      = ["ns" ++ "~" ++ Nat.repr 0]) :=
  ⟨⟨by decide, by decide⟩,
    (claim_C4_detached_init L0 HR (by decide) 0 (by decide)).2.2.2.2.2.2.2.2.2.2.2.1⟩

theorem Heap.get_alloc2_self (h : Heap) (o o' : Obj) :
    ((h.alloc o).2.alloc o').2.get h.next = o := by
  rw [Heap.get_alloc_of_lt]
  · exact h.get_alloc_self o
  · simp

theorem Heap.get_alloc3_self (h : Heap) (o o' o'' : Obj) :
    (((h.alloc o).2.alloc o').2.alloc o'').2.get h.next = o := by
  rw [Heap.get_alloc_of_lt]
  · exact h.get_alloc2_self o o'
  · simp
    omega

/-- Claim C8: for every `NEWFENCE`, `NEWFENCE_TEMP` or `NEWSCOPE_TEMP`
push whose parent level's `path_scope` is absent, a fresh root
scope-tree node is created and stored on the parent before the
copy/attach proceeds (the child's node is derived from it: the snapshot
for `NEWSCOPE_TEMP`, the attached fence for the fence modes); a plain
`NEWSCOPE` push performs no such lazy creation, so a `NEWSCOPE` child of
a parent with no scope-tree node also has none. -/
theorem claim_C8_lazy_scope_creation (prev : ContextLevel) (h : Heap)
    (hps : prev.path_scope = none) :
    ((ContextLevel.initChild prev .NEWSCOPE_TEMP h).2.1.path_scope
      = some h.next ∧
     (ContextLevel.initChild prev .NEWSCOPE_TEMP h).2.2.get h.next
      = .scopenode true [] [] ∧
     (ContextLevel.initChild prev .NEWSCOPE_TEMP h).1.path_scope
      = some (h.next + 1)) ∧
    ((ContextLevel.initChild prev .NEWFENCE h).2.1.path_scope
      = some h.next ∧
     (ContextLevel.initChild prev .NEWFENCE h).1.path_scope
      = some (h.next + 1) ∧
     (ContextLevel.initChild prev .NEWFENCE h).2.2.scopeChildren h.next
      = [h.next + 1]) ∧
    ((ContextLevel.initChild prev .NEWFENCE_TEMP h).2.1.path_scope
      = some h.next ∧
     (ContextLevel.initChild prev .NEWFENCE_TEMP h).1.path_scope
      = some (h.next + 2) ∧
     (ContextLevel.initChild prev .NEWFENCE_TEMP h).2.2.scopeChildren h.next
      = [h.next + 2]) ∧
    ((ContextLevel.initChild prev .NEWSCOPE h).2.1.path_scope = none ∧
     (ContextLevel.initChild prev .NEWSCOPE h).1.path_scope = none) := by
  refine ⟨⟨?_, ?_, ?_⟩, ⟨?_, ?_, ?_⟩, ⟨?_, ?_, ?_⟩, ?_, ?_⟩
  · simp [ContextLevel.initChild, hps, new_scope_tree]
  · simp [ContextLevel.initChild, hps, new_scope_tree, copyNode,
      Heap.get_alloc2_self]
  · simp [ContextLevel.initChild, hps, new_scope_tree, copyNode]
  · simp [ContextLevel.initChild, hps, new_scope_tree]
  · simp [ContextLevel.initChild, hps, new_scope_tree, attach_fence,
      Heap.get_alloc2_self]
  · simp [ContextLevel.initChild, hps, new_scope_tree, attach_fence,
      Heap.get_alloc2_self, Heap.scopeChildren]
  · simp [ContextLevel.initChild, hps, new_scope_tree]
  · simp [ContextLevel.initChild, hps, new_scope_tree, attach_fence, copyNode,
      Heap.get_alloc3_self]
  · simp [ContextLevel.initChild, hps, new_scope_tree, attach_fence, copyNode,
      Heap.get_alloc3_self, Heap.scopeChildren]
  · simp [ContextLevel.initChild, hps]
  · simp [ContextLevel.initChild, hps]

/-- Witness for claim C8 at the concrete compilation root, whose
`path_scope` is absent. -/
theorem claim_C8_lazy_scope_creation_witness :
    L0.path_scope = none ∧
    ((ContextLevel.initChild L0 .NEWSCOPE HR).2.1.path_scope = none ∧
     (ContextLevel.initChild L0 .NEWSCOPE HR).1.path_scope = none) :=
  ⟨by decide, (claim_C8_lazy_scope_creation L0 HR (by decide)).2.2.2⟩

theorem procFields_initChild_prev (prev : ContextLevel)
    (mode : ContextSwitchMode) (h : Heap) :
    (ContextLevel.initChild prev mode h).2.1.procFields = prev.procFields := by
  cases mode <;> cases hps : prev.path_scope <;>
    simp [ContextLevel.initChild, hps, ContextLevel.procFields]

theorem procFields_initChild_child (prev : ContextLevel)
    (mode : ContextSwitchMode) (h : Heap) (hm : mode ≠ .DETACHED) :
    (ContextLevel.initChild prev mode h).1.procFields = prev.procFields := by
  cases mode <;> first
  | exact absurd rfl hm
  | cases hps : prev.path_scope <;>
      simp [ContextLevel.initChild, hps, ContextLevel.procFields]

theorem runOps_cons (op : Op) (ops : List Op) (s : List ContextLevel × Heap) :
    runOps (op :: ops) s = runOps ops (stepOp s op) := rfl

theorem runOps_append (ops ops' : List Op) (s : List ContextLevel × Heap) :
    runOps (ops ++ ops') s = runOps ops' (runOps ops s) :=
  List.foldl_append _ _ _ _

theorem runOps_balanced_top (ops : List Op) (hb : BalancedOps ops)
    (hnd : Op.push .DETACHED ∉ ops) :
    ∀ (l : ContextLevel) (rest : List ContextLevel) (h : Heap),
      ∃ l' h', runOps ops (l :: rest, h) = (l' :: rest, h') ∧
        l'.procFields = l.procFields := by
  induction hb with
  | nil => exact fun l rest h => ⟨l, h, rfl, rfl⟩
  | wrap m s t _ _ ihs iht =>
    intro l rest h
    have hm : m ≠ .DETACHED := by
      intro e
      exact hnd (by simp [e])
    have hnds : Op.push .DETACHED ∉ s := by
      intro hx
      exact hnd (by simp [hx])
    have hndt : Op.push .DETACHED ∉ t := by
      intro hx
      exact hnd (by simp [hx])
    have hstep : stepOp (l :: rest, h) (Op.push m) =
        ((ContextLevel.initChild l m h).1 ::
         (ContextLevel.initChild l m h).2.1 :: rest,
         (ContextLevel.initChild l m h).2.2) := rfl
    obtain ⟨c2, h2, hrun, hpf⟩ := ihs hnds (ContextLevel.initChild l m h).1
      ((ContextLevel.initChild l m h).2.1 :: rest)
      (ContextLevel.initChild l m h).2.2
    have hpop : stepOp (c2 :: (ContextLevel.initChild l m h).2.1 :: rest, h2)
        Op.pop = ((ContextLevel.initChild l m h).2.1 :: rest,
          c2.on_pop (ContextLevel.initChild l m h).2.1 h2) := rfl
    obtain ⟨l', h', hrun', hpf'⟩ := iht hndt
      (ContextLevel.initChild l m h).2.1 rest
      (c2.on_pop (ContextLevel.initChild l m h).2.1 h2)
    refine ⟨l', h', ?_, ?_⟩
    · rw [runOps_append, runOps_cons (Op.push m) s, hstep, hrun,
        runOps_cons Op.pop t, hpop, hrun']
    · rw [hpf', procFields_initChild_prev]

/-- Claim C1: for every sequence of `ContextLevel` pushes and matching
pops in which no push uses the `DETACHED` mode, each process-wide field
of every child level (`schema`, `aliases`, `arguments`, `all_sets`,
`stmt_metadata`, `source_map`, `view_nodes`, `view_sets`,
`path_id_namespace`, `view_map`, `class_shapes`, `scope_id_ctr`,
`path_scope_map`, `toplevel_clause`, `toplevel_stmt`) is the very same
object as the parent's field (for the address-valued fields, equality
here is reference identity), so after the sequence the top level's
process-wide fields are identical to what they were before it. -/
theorem claim_C1_process_wide_identity :
    (∀ (prev : ContextLevel) (mode : ContextSwitchMode) (h : Heap),
      mode ≠ .DETACHED →
      (ContextLevel.initChild prev mode h).1.procFields = prev.procFields ∧
      (ContextLevel.initChild prev mode h).2.1.procFields = prev.procFields) ∧
    (∀ ops : List Op, BalancedOps ops → Op.push .DETACHED ∉ ops →
      ∀ (l : ContextLevel) (rest : List ContextLevel) (h : Heap),
        ∃ l' h', runOps ops (l :: rest, h) = (l' :: rest, h') ∧
          l'.procFields = l.procFields) :=
  ⟨fun prev mode h hm =>
    ⟨procFields_initChild_child prev mode h hm,
     procFields_initChild_prev prev mode h⟩,
   fun ops hb hnd => runOps_balanced_top ops hb hnd⟩

/-- Witness for claim C1: a concrete `SUBQUERY` push and its matching
pop over the concrete compilation root leave the top level's
process-wide fields identical. -/
theorem claim_C1_process_wide_identity_witness :
    ((ContextLevel.initChild L0 .SUBQUERY HR).1.procFields = L0.procFields) ∧
    ∃ l' h', runOps [Op.push .SUBQUERY, Op.pop] ([L0], HR) = ([l'], h') ∧
      l'.procFields = L0.procFields :=
  ⟨(claim_C1_process_wide_identity.1 L0 .SUBQUERY HR (by decide)).1,
   claim_C1_process_wide_identity.2 [Op.push .SUBQUERY, Op.pop]
     (BalancedOps.wrap .SUBQUERY [] [] .nil .nil) (by decide) L0 [] HR⟩

theorem copyNode_pres : ∀ (fuel : Nat) (a : Nat) (h : Heap),
    h.next ≤ (copyNode fuel a h).2.next ∧
    (∀ b, b < h.next → (copyNode fuel a h).2.get b = h.get b) := by
  intro fuel
  induction fuel with
  | zero =>
    intro a h
    refine ⟨by simp [copyNode], fun b hb => ?_⟩
    simp only [copyNode]
    exact Heap.get_alloc_of_lt _ _ _ hb
  | succ fuel ih =>
    intro a h
    cases hga : h.get a with
    | scopenode fl cs bs =>
      have hfold : ∀ (l : List Nat) (acc : List Nat × Heap),
          h.next ≤ acc.2.next →
          (∀ b, b < h.next → acc.2.get b = h.get b) →
          h.next ≤ (l.foldl
            (fun (acc : List Nat × Heap) c =>
              (acc.1 ++ [(copyNode fuel c acc.2).1],
               (copyNode fuel c acc.2).2)) acc).2.next ∧
          (∀ b, b < h.next → (l.foldl
            (fun (acc : List Nat × Heap) c =>
              (acc.1 ++ [(copyNode fuel c acc.2).1],
               (copyNode fuel c acc.2).2)) acc).2.get b = h.get b) := by
        intro l
        induction l with
        | nil => exact fun acc h1 h2 => ⟨h1, h2⟩
        | cons c l ihl =>
          intro acc h1 h2
          simp only [List.foldl_cons]
          refine ihl _ (le_trans h1 (ih c acc.2).1) ?_
          intro b hb
          rw [(ih c acc.2).2 b (lt_of_lt_of_le hb h1)]
          exact h2 b hb
        
      obtain ⟨hn, hg⟩ := hfold cs ([], h) (le_refl _) (fun b hb => rfl)
      constructor
      · simp only [copyNode, hga, Heap.alloc_next]
        omega
      · intro b hb
        simp only [copyNode, hga]
        rw [Heap.get_alloc_of_lt _ _ _ (lt_of_lt_of_le hb hn)]
        exact hg b hb
    | dict es =>
      simp only [copyNode, hga]
      exact ⟨by simp, fun b hb => Heap.get_alloc_of_lt _ _ _ hb⟩
    | pset xs =>
      simp only [copyNode, hga]
      exact ⟨by simp, fun b hb => Heap.get_alloc_of_lt _ _ _ hb⟩
    | plist xs =>
      simp only [copyNode, hga]
      exact ⟨by simp, fun b hb => Heap.get_alloc_of_lt _ _ _ hb⟩
    | chainmap ms =>
      simp only [copyNode, hga]
      exact ⟨by simp, fun b hb => Heap.get_alloc_of_lt _ _ _ hb⟩
    | counter n =>
      simp only [copyNode, hga]
      exact ⟨by simp, fun b hb => Heap.get_alloc_of_lt _ _ _ hb⟩
    | aliasgen n =>
      simp only [copyNode, hga]
      exact ⟨by simp, fun b hb => Heap.get_alloc_of_lt _ _ _ hb⟩
    | missing =>
      simp only [copyNode, hga]
      exact ⟨by simp, fun b hb => Heap.get_alloc_of_lt _ _ _ hb⟩

theorem copyFold_next_ge (fuel : Nat) (l : List Nat) :
    ∀ acc : List Nat × Heap,
      acc.2.next ≤ (l.foldl
        (fun (acc : List Nat × Heap) c =>
          (acc.1 ++ [(copyNode fuel c acc.2).1],
           (copyNode fuel c acc.2).2)) acc).2.next := by
  induction l with
  | nil => exact fun acc => le_refl _
  | cons c l ihl =>
    intro acc
    simp only [List.foldl_cons]
    exact le_trans (copyNode_pres fuel c acc.2).1
      (ihl (acc.1 ++ [(copyNode fuel c acc.2).1], (copyNode fuel c acc.2).2))

theorem copyNode_fst_ge (fuel a : Nat) (h : Heap) :
    h.next ≤ (copyNode fuel a h).1 := by
  cases fuel with
  | zero => simp [copyNode]
  | succ fuel =>
    cases hga : h.get a <;> simp only [copyNode, hga, Heap.alloc_fst] <;>
      first
      | exact le_refl _
      | exact copyFold_next_ge fuel _ ([], h)

/-- Claim C2 (amended): for every `NEWFENCE_TEMP` push on a parent
whose scope-tree node is `p`, the parent's node is snapshot-copied but
the snapshot is immediately discarded: the new fenced child node is
attached to the parent's REAL scope-tree node (it appears among `p`'s
children right after the push); the matching pop removes it again, so
after the push and the matching pop the parent's real node has exactly
the same children it had before the push. -/
theorem claim_C2_newfence_temp_amended (prev : ContextLevel) (h : Heap) (p : Nat)
    (hwf : prev.wf h) (hps : prev.path_scope = some p) :
    (∃ f, (ContextLevel.initChild prev .NEWFENCE_TEMP h).1.path_scope = some f ∧
      f ∈ (ContextLevel.initChild prev .NEWFENCE_TEMP h).2.2.scopeChildren p) ∧
    ((ContextLevel.initChild prev .NEWFENCE_TEMP h).1.on_pop
      ((ContextLevel.initChild prev .NEWFENCE_TEMP h).2.1)
      ((ContextLevel.initChild prev .NEWFENCE_TEMP h).2.2)).scopeChildren p
      = h.scopeChildren p := by
  obtain ⟨hal, han, hmo, harg, hall, hsm, hso, hvn, hvs, hav, hvc, hco,
    hsg, hvm, hcs, hpsc, hpm, hsc⟩ := hwf
  rw [hps] at hpsc
  obtain ⟨hp, hok⟩ := hpsc
  have hge : h.next ≤ (copyNode h.next p h).2.next := (copyNode_pres h.next p h).1
  cases hgp : h.get p with
  | scopenode fl cs bs =>
    have hcslt : ∀ c ∈ cs, c < h.next := by
      rw [hgp] at hok
      simp only [Obj.scopeOK, List.all_eq_true, decide_eq_true_eq] at hok
      exact hok
    have ec : (ContextLevel.initChild prev .NEWFENCE_TEMP h).1.path_scope =
        some (attach_fence (copyNode h.next p h).2 p).1 := by
      simp [ContextLevel.initChild, hps]
    have em : (ContextLevel.initChild prev .NEWFENCE_TEMP h).1.mode =
        .NEWFENCE_TEMP := by
      simp [ContextLevel.initChild, hps]
    have ep : (ContextLevel.initChild prev .NEWFENCE_TEMP h).2.1 = prev := by
      simp [ContextLevel.initChild, hps]
    have eh : (ContextLevel.initChild prev .NEWFENCE_TEMP h).2.2 =
        (attach_fence (copyNode h.next p h).2 p).2 := by
      simp [ContextLevel.initChild, hps]
    have hcp2 : (copyNode h.next p h).2.get p = Obj.scopenode fl cs bs := by
      rw [(copyNode_pres h.next p h).2 p hp]
      exact hgp
    have haf : attach_fence (copyNode h.next p h).2 p =
        ((copyNode h.next p h).2.next,
         ((copyNode h.next p h).2.alloc (.scopenode true [] [])).2.set p
           (.scopenode fl (cs ++ [(copyNode h.next p h).2.next]) bs)) := by
      simp only [attach_fence]
      rw [Heap.get_alloc_of_lt _ _ _ (lt_of_lt_of_le hp hge), hcp2]
      rfl
    have hgetp : (attach_fence (copyNode h.next p h).2 p).2.get p =
        .scopenode fl (cs ++ [(copyNode h.next p h).2.next]) bs := by
      rw [haf]
      exact Heap.get_set_self _ _ _
    constructor
    · refine ⟨(attach_fence (copyNode h.next p h).2 p).1, ec, ?_⟩
      rw [eh]
      unfold Heap.scopeChildren
      rw [hgetp, haf]
      simp
    · have hfil : (cs ++ [(copyNode h.next p h).2.next]).filter
          (fun x => decide (x ≠ (copyNode h.next p h).2.next)) = cs := by
        rw [List.filter_append]
        have h1 : cs.filter
            (fun x => decide (x ≠ (copyNode h.next p h).2.next)) = cs := by
          refine List.filter_eq_self.mpr ?_
          intro c hc
          simp only [decide_eq_true_eq]
          have := hcslt c hc
          omega
        have h2 : [(copyNode h.next p h).2.next].filter
            (fun x => decide (x ≠ (copyNode h.next p h).2.next)) = [] := by
          simp
        rw [h1, h2, List.append_nil]
      have epop : (ContextLevel.initChild prev .NEWFENCE_TEMP h).1.on_pop
          ((ContextLevel.initChild prev .NEWFENCE_TEMP h).2.1)
          ((ContextLevel.initChild prev .NEWFENCE_TEMP h).2.2) =
          remove_subtree ((ContextLevel.initChild prev .NEWFENCE_TEMP h).2.2) p
            ((attach_fence (copyNode h.next p h).2 p).1) := by
        unfold ContextLevel.on_pop
        rw [em, ep, hps, ec]
        simp
      rw [epop, eh, haf]
      simp only [remove_subtree, Heap.get_set_self, Heap.scopeChildren, hgp,
        hfil]
  | dict es =>
    rw [hgp] at hok
    simp [Obj.scopeOK] at hok
  | pset xs =>
    rw [hgp] at hok
    simp [Obj.scopeOK] at hok
  | plist xs =>
    rw [hgp] at hok
    simp [Obj.scopeOK] at hok
  | chainmap ms =>
    rw [hgp] at hok
    simp [Obj.scopeOK] at hok
  | counter n =>
    rw [hgp] at hok
    simp [Obj.scopeOK] at hok
  | aliasgen n =>
    rw [hgp] at hok
    simp [Obj.scopeOK] at hok
  | missing =>
    rw [hgp] at hok
    simp [Obj.scopeOK] at hok

/-- A concrete parent frame that owns a scope-tree node (at address 19,
the first address after the root frame's containers). -/
def LS : ContextLevel := { L0 with path_scope := some (new_scope_tree HR).1 }

/-- The heap after creating `LS`'s scope-tree node. -/
def HS : Heap := (new_scope_tree HR).2

/-- Counterexample to claim C2 as stated: after a `NEWFENCE_TEMP` push
on `LS` (real node 19), the snapshot lives at address 20, yet the new
fenced child (21) is a child of the REAL node 19 and not of the
snapshot 20 — the claim's "attached to that snapshot, never to the
parent's real node" is false on the code, which overwrites the snapshot
assignment with `prevlevel.path_scope.attach_fence()`. -/
theorem claim_C2_counterexample :
    LS.path_scope = some 19 ∧
    (ContextLevel.initChild LS .NEWFENCE_TEMP HS).1.path_scope = some 21 ∧
    (ContextLevel.initChild LS .NEWFENCE_TEMP HS).2.2.scopeChildren 19
      = [21] ∧
    (ContextLevel.initChild LS .NEWFENCE_TEMP HS).2.2.scopeChildren 20
      = [] := by
  decide

/-- Witness for the amended claim C2 at the concrete parent `LS`. -/
theorem claim_C2_newfence_temp_amended_witness :
    (LS.wf HS ∧ LS.path_scope = some 19) ∧
    ((ContextLevel.initChild LS .NEWFENCE_TEMP HS).1.on_pop
      ((ContextLevel.initChild LS .NEWFENCE_TEMP HS).2.1)
      ((ContextLevel.initChild LS .NEWFENCE_TEMP HS).2.2)).scopeChildren 19
      = HS.scopeChildren 19 :=
  ⟨⟨by decide, by decide⟩,
    (claim_C2_newfence_temp_amended LS HS 19 (by decide) (by decide)).2⟩

theorem Heap.chainLookup_eq_chainFind (h : Heap) (a q : Nat) (ms : List Nat)
    (hc : h.get a = .chainmap ms) : h.chainLookup a q = chainFind h ms q := by
  unfold Heap.chainLookup Heap.chainMaps
  rw [hc]

theorem chainFind_cons_empty (h : Heap) (d : Nat) (ms : List Nat) (q : Nat)
    (hd : h.dictContents d = []) :
    chainFind h (d :: ms) q = chainFind h ms q := by
  show (match dictFind (h.dictContents d) q with
    | some v => some v
    | none => chainFind h ms q) = chainFind h ms q
  rw [hd]
  rfl

/-- Claim C5 (amended): for every push, the copy-class fields
(`anchors`, `modaliases`, `aliased_views`, `view_class_map`,
`class_view_overrides`) obey: on a `SUBQUERY` transition the child
receives mutation-isolated copies carrying the parent's entries (the
four dict-valued fields are shallow copies; `aliased_views` gets a
fresh child layer over the parent's maps, whose lookups initially agree
with the parent's); on a `DETACHED` transition only `anchors` and
`modaliases` are independent copies with the parent's entries, while
`aliased_views`, `view_class_map` and `class_view_overrides` are reset
to empty; on every other non-`NEW` transition the child holds the same
reference as the parent. -/
theorem claim_C5_copy_class_policy (prev : ContextLevel) (h : Heap)
    (hwf : prev.wf h) :
    (((ContextLevel.initChild prev .SUBQUERY h).1.anchors ≠ prev.anchors) ∧
     ((ContextLevel.initChild prev .SUBQUERY h).2.2.dictContents
       ((ContextLevel.initChild prev .SUBQUERY h).1.anchors)
       = h.dictContents prev.anchors) ∧
     (∀ k v, (((ContextLevel.initChild prev .SUBQUERY h).2.2.dictInsert
       ((ContextLevel.initChild prev .SUBQUERY h).1.anchors) k v).dictContents
       prev.anchors) = h.dictContents prev.anchors)) ∧
    (((ContextLevel.initChild prev .SUBQUERY h).1.modaliases ≠ prev.modaliases) ∧
     ((ContextLevel.initChild prev .SUBQUERY h).2.2.dictContents
       ((ContextLevel.initChild prev .SUBQUERY h).1.modaliases)
       = h.dictContents prev.modaliases) ∧
     (∀ k v, (((ContextLevel.initChild prev .SUBQUERY h).2.2.dictInsert
       ((ContextLevel.initChild prev .SUBQUERY h).1.modaliases) k v).dictContents
       prev.modaliases) = h.dictContents prev.modaliases)) ∧
    (((ContextLevel.initChild prev .SUBQUERY h).1.view_class_map
       ≠ prev.view_class_map) ∧
     ((ContextLevel.initChild prev .SUBQUERY h).2.2.dictContents
       ((ContextLevel.initChild prev .SUBQUERY h).1.view_class_map)
       = h.dictContents prev.view_class_map) ∧
     (∀ k v, (((ContextLevel.initChild prev .SUBQUERY h).2.2.dictInsert
       ((ContextLevel.initChild prev .SUBQUERY h).1.view_class_map) k v).dictContents
       prev.view_class_map) = h.dictContents prev.view_class_map)) ∧
    (((ContextLevel.initChild prev .SUBQUERY h).1.class_view_overrides
       ≠ prev.class_view_overrides) ∧
     ((ContextLevel.initChild prev .SUBQUERY h).2.2.dictContents
       ((ContextLevel.initChild prev .SUBQUERY h).1.class_view_overrides)
       = h.dictContents prev.class_view_overrides) ∧
     (∀ k v, (((ContextLevel.initChild prev .SUBQUERY h).2.2.dictInsert
       ((ContextLevel.initChild prev .SUBQUERY h).1.class_view_overrides) k v).dictContents
       prev.class_view_overrides) = h.dictContents prev.class_view_overrides)) ∧
    (((ContextLevel.initChild prev .SUBQUERY h).1.aliased_views
       ≠ prev.aliased_views) ∧
     (∀ q, (ContextLevel.initChild prev .SUBQUERY h).2.2.chainLookup
       ((ContextLevel.initChild prev .SUBQUERY h).1.aliased_views) q
       = h.chainLookup prev.aliased_views q) ∧
     (∀ k v q, (((ContextLevel.initChild prev .SUBQUERY h).2.2.chainInsert
       ((ContextLevel.initChild prev .SUBQUERY h).1.aliased_views) k v).chainLookup
       prev.aliased_views q) = h.chainLookup prev.aliased_views q)) ∧
    (((ContextLevel.initChild prev .DETACHED h).1.anchors ≠ prev.anchors) ∧
     ((ContextLevel.initChild prev .DETACHED h).2.2.dictContents
       ((ContextLevel.initChild prev .DETACHED h).1.anchors)
       = h.dictContents prev.anchors) ∧
     ((ContextLevel.initChild prev .DETACHED h).1.modaliases ≠ prev.modaliases) ∧
     ((ContextLevel.initChild prev .DETACHED h).2.2.dictContents
       ((ContextLevel.initChild prev .DETACHED h).1.modaliases)
       = h.dictContents prev.modaliases)) ∧
    ((∀ q, (ContextLevel.initChild prev .DETACHED h).2.2.chainLookup
       ((ContextLevel.initChild prev .DETACHED h).1.aliased_views) q = none) ∧
     ((ContextLevel.initChild prev .DETACHED h).2.2.dictContents
       ((ContextLevel.initChild prev .DETACHED h).1.view_class_map) = []) ∧
     ((ContextLevel.initChild prev .DETACHED h).2.2.dictContents
       ((ContextLevel.initChild prev .DETACHED h).1.class_view_overrides) = [])) ∧
    ((ContextLevel.initChild prev .NEWSCOPE h).1.anchors = prev.anchors ∧
     (ContextLevel.initChild prev .NEWSCOPE h).1.modaliases = prev.modaliases ∧
     (ContextLevel.initChild prev .NEWSCOPE h).1.aliased_views
       = prev.aliased_views ∧
     (ContextLevel.initChild prev .NEWSCOPE h).1.view_class_map
       = prev.view_class_map ∧
     (ContextLevel.initChild prev .NEWSCOPE h).1.class_view_overrides
       = prev.class_view_overrides) ∧
    ((ContextLevel.initChild prev .NEWSCOPE_TEMP h).1.anchors = prev.anchors ∧
     (ContextLevel.initChild prev .NEWSCOPE_TEMP h).1.modaliases
       = prev.modaliases ∧
     (ContextLevel.initChild prev .NEWSCOPE_TEMP h).1.aliased_views
       = prev.aliased_views ∧
     (ContextLevel.initChild prev .NEWSCOPE_TEMP h).1.view_class_map
       = prev.view_class_map ∧
     (ContextLevel.initChild prev .NEWSCOPE_TEMP h).1.class_view_overrides
       = prev.class_view_overrides) ∧
    ((ContextLevel.initChild prev .NEWFENCE h).1.anchors = prev.anchors ∧
     (ContextLevel.initChild prev .NEWFENCE h).1.modaliases = prev.modaliases ∧
     (ContextLevel.initChild prev .NEWFENCE h).1.aliased_views
       = prev.aliased_views ∧
     (ContextLevel.initChild prev .NEWFENCE h).1.view_class_map
       = prev.view_class_map ∧
     (ContextLevel.initChild prev .NEWFENCE h).1.class_view_overrides
       = prev.class_view_overrides) ∧
    ((ContextLevel.initChild prev .NEWFENCE_TEMP h).1.anchors = prev.anchors ∧
     (ContextLevel.initChild prev .NEWFENCE_TEMP h).1.modaliases
       = prev.modaliases ∧
     (ContextLevel.initChild prev .NEWFENCE_TEMP h).1.aliased_views
       = prev.aliased_views ∧
     (ContextLevel.initChild prev .NEWFENCE_TEMP h).1.view_class_map
       = prev.view_class_map ∧
     (ContextLevel.initChild prev .NEWFENCE_TEMP h).1.class_view_overrides
       = prev.class_view_overrides) := by
  obtain ⟨hal, han, hmo, harg, hall, hsm, hso, hvn, hvs, hav, hvc, hco,
    hsg, hvm, hcs, hpsc, hpm, hsc⟩ := hwf
  have hal1 := hal.1
  have han1 := han.1
  have hmo1 := hmo.1
  have hav1 := hav.1
  have hvc1 := hvc.1
  have hco1 := hco.1
  have hanals : prev.anchors ≠ prev.aliases := by
    intro e
    rw [e] at han
    exact Obj.not_isDict_isAliasGen _ han.2 hal.2
  have hmoals : prev.modaliases ≠ prev.aliases := by
    intro e
    rw [e] at hmo
    exact Obj.not_isDict_isAliasGen _ hmo.2 hal.2
  refine ⟨⟨?_, ?_, ?_⟩, ⟨?_, ?_, ?_⟩, ⟨?_, ?_, ?_⟩, ⟨?_, ?_, ?_⟩,
    ⟨?_, ?_, ?_⟩, ⟨?_, ?_, ?_, ?_⟩, ⟨?_, ?_, ?_⟩, ?_, ?_, ?_, ?_⟩
  · rw [subquery_child_eq]
    show h.next ≠ prev.anchors
    omega
  · rw [subquery_child_eq]
    exact Heap.dictContents_eq_of_get_eq _ _ _ _ (subquery_get_anchors prev h)
  · intro k v
    rw [subquery_child_eq]
    refine Heap.dictContents_eq_of_get_eq _ _ _ _ ?_
    rw [Heap.dictInsert_get_of_ne _ _ _ _ _ (by omega : prev.anchors ≠ h.next)]
    exact subquery_get_of_lt prev h _ han1
  · rw [subquery_child_eq]
    show h.next + 1 ≠ prev.modaliases
    omega
  · rw [subquery_child_eq]
    exact Heap.dictContents_eq_of_get_eq _ _ _ _
      (subquery_get_modaliases prev h hmo1)
  · intro k v
    rw [subquery_child_eq]
    refine Heap.dictContents_eq_of_get_eq _ _ _ _ ?_
    rw [Heap.dictInsert_get_of_ne _ _ _ _ _
      (by omega : prev.modaliases ≠ h.next + 1)]
    exact subquery_get_of_lt prev h _ hmo1
  · rw [subquery_child_eq]
    show h.next + 4 ≠ prev.view_class_map
    omega
  · rw [subquery_child_eq]
    exact Heap.dictContents_eq_of_get_eq _ _ _ _
      (subquery_get_view_class_map prev h hvc1)
  · intro k v
    rw [subquery_child_eq]
    refine Heap.dictContents_eq_of_get_eq _ _ _ _ ?_
    rw [Heap.dictInsert_get_of_ne _ _ _ _ _
      (by omega : prev.view_class_map ≠ h.next + 4)]
    exact subquery_get_of_lt prev h _ hvc1
  · rw [subquery_child_eq]
    show h.next + 5 ≠ prev.class_view_overrides
    omega
  · rw [subquery_child_eq]
    exact Heap.dictContents_eq_of_get_eq _ _ _ _
      (subquery_get_class_view_overrides prev h hco1)
  · intro k v
    rw [subquery_child_eq]
    refine Heap.dictContents_eq_of_get_eq _ _ _ _ ?_
    rw [Heap.dictInsert_get_of_ne _ _ _ _ _
      (by omega : prev.class_view_overrides ≠ h.next + 5)]
    exact subquery_get_of_lt prev h _ hco1
  · rw [subquery_child_eq]
    show h.next + 3 ≠ prev.aliased_views
    omega
  · intro q
    rw [subquery_child_eq]
    show (ContextLevel.initChild prev .SUBQUERY h).2.2.chainLookup
      (h.next + 3) q = _
    have e2 : (ContextLevel.initChild prev .SUBQUERY h).2.2.dictContents
        (h.next + 2) = [] := by
      unfold Heap.dictContents
      rw [subquery_get_front_dict]
    rw [Heap.chainLookup_eq_chainFind _ _ q _
        (subquery_get_aliased_views prev h hav1),
      chainFind_cons_empty _ _ _ _ e2]
    refine chainFind_congr _ _ _ _ ?_
    intro m hm
    exact subquery_get_of_lt prev h _ (hav.2.2 m hm).1
  · intro k v q
    obtain ⟨ms0, hms0⟩ : ∃ ms, h.get prev.aliased_views = .chainmap ms := by
      cases hga : h.get prev.aliased_views <;>
        first
        | exact ⟨_, rfl⟩
        | (have hx := hav.2.1
           rw [hga] at hx
           simp [Obj.isChain] at hx)
    have hmsq : h.chainMaps prev.aliased_views = ms0 := by
      unfold Heap.chainMaps
      rw [hms0]
    rw [subquery_child_eq]
    show ((ContextLevel.initChild prev .SUBQUERY h).2.2.chainInsert
      (h.next + 3) k v).chainLookup prev.aliased_views q = _
    unfold Heap.chainInsert
    rw [subquery_get_aliased_views prev h hav1]
    show ((ContextLevel.initChild prev .SUBQUERY h).2.2.dictInsert
      (h.next + 2) k v).chainLookup prev.aliased_views q = _
    have eget : ((ContextLevel.initChild prev .SUBQUERY h).2.2.dictInsert
        (h.next + 2) k v).get prev.aliased_views = .chainmap ms0 := by
      rw [Heap.dictInsert_get_of_ne _ _ _ _ _
        (by omega : prev.aliased_views ≠ h.next + 2),
        subquery_get_of_lt prev h _ hav1]
      exact hms0
    rw [Heap.chainLookup_eq_chainFind _ _ q _ eget,
      Heap.chainLookup_eq_chainFind _ _ q _ hms0]
    refine chainFind_congr _ _ _ _ ?_
    intro m hm
    have hmlt : m < h.next := (hav.2.2 m (hmsq ▸ hm)).1
    rw [Heap.dictInsert_get_of_ne _ _ _ _ _ (by omega : m ≠ h.next + 2)]
    exact subquery_get_of_lt prev h _ hmlt
  · obtain ⟨ean, _⟩ := detached_child_addrs prev h
    rw [ean]
    omega
  · obtain ⟨ean, _⟩ := detached_child_addrs prev h
    rw [ean]
    refine Heap.dictContents_eq_of_get_eq _ _ _ _ ?_
    rw [detached_get_mid prev h h.next (by omega) (by omega) hal1]
    exact detachedPre_get_anchors prev h
  · obtain ⟨_, emo, _⟩ := detached_child_addrs prev h
    rw [emo]
    omega
  · obtain ⟨_, emo, _⟩ := detached_child_addrs prev h
    rw [emo]
    refine Heap.dictContents_eq_of_get_eq _ _ _ _ ?_
    rw [detached_get_mid prev h (h.next + 1) (by omega) (by omega) hal1]
    exact detachedPre_get_modaliases prev h hmo1
  · intro q
    obtain ⟨_, _, eav, _⟩ := detached_child_addrs prev h
    rw [eav]
    have e1 : (ContextLevel.initChild prev .DETACHED h).2.2.get
        (h.next + 3) = .chainmap [h.next + 2] := by
      rw [detached_get_mid prev h (h.next + 3) (by omega) (by omega) hal1,
        detachedPre_get_chain]
    have e2 : (ContextLevel.initChild prev .DETACHED h).2.2.dictContents
        (h.next + 2) = [] := by
      unfold Heap.dictContents
      rw [detached_get_mid prev h (h.next + 2) (by omega) (by omega) hal1,
        detachedPre_get_front_dict]
    rw [Heap.chainLookup_eq_chainFind _ _ q _ e1,
      chainFind_cons_empty _ _ _ _ e2]
    rfl
  · obtain ⟨_, _, _, evc, _⟩ := detached_child_addrs prev h
    rw [evc]
    unfold Heap.dictContents
    rw [detached_get_mid prev h (h.next + 4) (by omega) (by omega) hal1,
      detachedPre_get_vcm]
  · obtain ⟨_, _, _, _, eco, _⟩ := detached_child_addrs prev h
    rw [eco]
    unfold Heap.dictContents
    rw [detached_get_mid prev h (h.next + 5) (by omega) (by omega) hal1,
      detachedPre_get_cvo]
  · exact ⟨rfl, rfl, rfl, rfl, rfl⟩
  · cases hps : prev.path_scope <;> simp [ContextLevel.initChild, hps]
  · cases hps : prev.path_scope <;> simp [ContextLevel.initChild, hps]
  · cases hps : prev.path_scope <;> simp [ContextLevel.initChild, hps]

/-- A concrete heap in which the root frame's `view_class_map` carries
the entry `1 -> 2`. -/
def HV : Heap := HR.dictInsert L0.view_class_map 1 2

/-- Counterexample to claim C5 as stated: on a `DETACHED` push the
child's `view_class_map` does NOT receive the parent's entries — the
code resets it to a fresh empty dict (context.py line 270), so the
parent's entry `1 -> 2` is not visible through the child's field. -/
theorem claim_C5_counterexample :
    HV.dictLookup L0.view_class_map 1 = some 2 ∧
    (ContextLevel.initChild L0 .DETACHED HV).2.2.dictLookup
      ((ContextLevel.initChild L0 .DETACHED HV).1.view_class_map) 1 = none := by
  decide

/-- Witness for the amended claim C5 at the concrete compilation root:
the detached child's `view_class_map` starts empty. -/
theorem claim_C5_copy_class_policy_witness :
    L0.wf HR ∧
    (ContextLevel.initChild L0 .DETACHED HR).2.2.dictContents
      ((ContextLevel.initChild L0 .DETACHED HR).1.view_class_map) = [] :=
  ⟨by decide,
    (claim_C5_copy_class_policy L0 HR (by decide)).2.2.2.2.2.2.1.2.1⟩

theorem detached_child_shared (prev : ContextLevel) (h : Heap) :
    (ContextLevel.initChild prev .DETACHED h).1.schema = prev.schema ∧
    (ContextLevel.initChild prev .DETACHED h).1.aliases = prev.aliases ∧
    (ContextLevel.initChild prev .DETACHED h).1.scope_id_ctr
      = prev.scope_id_ctr ∧
    (ContextLevel.initChild prev .DETACHED h).1.arguments = prev.arguments ∧
    (ContextLevel.initChild prev .DETACHED h).1.all_sets = prev.all_sets ∧
    (ContextLevel.initChild prev .DETACHED h).1.stmt_metadata
      = prev.stmt_metadata ∧
    (ContextLevel.initChild prev .DETACHED h).1.view_map = prev.view_map ∧
    (ContextLevel.initChild prev .DETACHED h).1.class_shapes
      = prev.class_shapes ∧
    (ContextLevel.initChild prev .DETACHED h).1.path_scope
      = prev.path_scope ∧
    (ContextLevel.initChild prev .DETACHED h).1.path_scope_map
      = prev.path_scope_map ∧
    (ContextLevel.initChild prev .DETACHED h).1.toplevel_stmt
      = prev.toplevel_stmt :=
  ⟨rfl, rfl, rfl, rfl, rfl, rfl, rfl, rfl, rfl, rfl, rfl⟩

/-- Counterexample to claim C6 as stated: on a `DETACHED` push the
child's `arguments` map — a mutable dict that is neither the schema
handle nor a counter — is the very same object as the parent's
(context.py line 221 runs for every transition), and a key inserted
through the child's field is visible through the parent's field. -/
theorem claim_C6_counterexample :
    (ContextLevel.initChild L0 .DETACHED HR).1.arguments = L0.arguments ∧
    ((ContextLevel.initChild L0 .DETACHED HR).2.2.dictInsert
      ((ContextLevel.initChild L0 .DETACHED HR).1.arguments) 7 8).dictLookup
      L0.arguments 7 = some 8 := by
  decide

/-- Claim C6 (amended): for every `DETACHED` push, the child shares
with the parent the schema handle, the global counters (alias
generator, scope-id counter) AND the process-wide registries
(`arguments`, `all_sets`, `stmt_metadata`, `view_map`, `class_shapes`,
`path_scope`, `path_scope_map`, `toplevel_stmt`); every other
object-valued field of the child is freshly allocated (a reset or an
independent copy), so a mutation performed through any of those other
fields — and in particular through the child's fresh dict-valued
fields, its `aliased_views` layer, or its `singletons` set — is
invisible at every parent-visible address (other than the deliberately
shared alias generator, which the push itself advances). -/
theorem claim_C6_detached_sharing (prev : ContextLevel) (h : Heap)
    (hwf : prev.wf h) :
    ((ContextLevel.initChild prev .DETACHED h).1.schema = prev.schema ∧
     (ContextLevel.initChild prev .DETACHED h).1.aliases = prev.aliases ∧
     (ContextLevel.initChild prev .DETACHED h).1.scope_id_ctr
       = prev.scope_id_ctr ∧
     (ContextLevel.initChild prev .DETACHED h).1.arguments = prev.arguments ∧
     (ContextLevel.initChild prev .DETACHED h).1.all_sets = prev.all_sets ∧
     (ContextLevel.initChild prev .DETACHED h).1.stmt_metadata
       = prev.stmt_metadata ∧
     (ContextLevel.initChild prev .DETACHED h).1.view_map = prev.view_map ∧
     (ContextLevel.initChild prev .DETACHED h).1.class_shapes
       = prev.class_shapes ∧
     (ContextLevel.initChild prev .DETACHED h).1.path_scope
       = prev.path_scope ∧
     (ContextLevel.initChild prev .DETACHED h).1.path_scope_map
       = prev.path_scope_map ∧
     (ContextLevel.initChild prev .DETACHED h).1.toplevel_stmt
       = prev.toplevel_stmt) ∧
    (h.next ≤ (ContextLevel.initChild prev .DETACHED h).1.anchors ∧
     h.next ≤ (ContextLevel.initChild prev .DETACHED h).1.modaliases ∧
     h.next ≤ (ContextLevel.initChild prev .DETACHED h).1.aliased_views ∧
     h.next ≤ (ContextLevel.initChild prev .DETACHED h).1.view_class_map ∧
     h.next ≤ (ContextLevel.initChild prev .DETACHED h).1.class_view_overrides ∧
     h.next ≤ (ContextLevel.initChild prev .DETACHED h).1.source_map ∧
     h.next ≤ (ContextLevel.initChild prev .DETACHED h).1.view_nodes ∧
     h.next ≤ (ContextLevel.initChild prev .DETACHED h).1.view_sets ∧
     h.next ≤ (ContextLevel.initChild prev .DETACHED h).1.singletons) ∧
    (∀ b, b < h.next → b ≠ prev.aliases →
      (ContextLevel.initChild prev .DETACHED h).2.2.get b = h.get b) ∧
    (∀ a k v b, h.next ≤ a → b < h.next → b ≠ prev.aliases →
      ((ContextLevel.initChild prev .DETACHED h).2.2.dictInsert a k v).get b
        = h.get b) ∧
    (∀ k v b, b < h.next → b ≠ prev.aliases →
      ((ContextLevel.initChild prev .DETACHED h).2.2.chainInsert
        ((ContextLevel.initChild prev .DETACHED h).1.aliased_views) k v).get b
        = h.get b) ∧
    (∀ x b, b < h.next → b ≠ prev.aliases →
      ((ContextLevel.initChild prev .DETACHED h).2.2.setInsert
        ((ContextLevel.initChild prev .DETACHED h).1.singletons) x).get b
        = h.get b) := by
  obtain ⟨hal, han, hmo, harg, hall, hsm, hso, hvn, hvs, hav, hvc, hco,
    hsg, hvm, hcs, hpsc, hpm, hsc⟩ := hwf
  have hal1 := hal.1
  obtain ⟨ean, emo, eav, evc, eco, eso, evn, evs⟩ := detached_child_addrs prev h
  have esg := detached_child_singletons prev h
  refine ⟨detached_child_shared prev h, ?_, ?_, ?_, ?_, ?_⟩
  · rw [ean, emo, eav, evc, eco, eso, evn, evs, esg]
    refine ⟨by omega, by omega, by omega, by omega, by omega, by omega,
      by omega, by omega, by omega⟩
  · intro b hb hba
    exact detached_get_of_lt_of_ne prev h b hb hba
  · intro a k v b ha hb hba
    rw [Heap.dictInsert_get_of_ne _ _ _ _ _ (by omega : b ≠ a)]
    exact detached_get_of_lt_of_ne prev h b hb hba
  · intro k v b hb hba
    rw [eav]
    have e1 : (ContextLevel.initChild prev .DETACHED h).2.2.get
        (h.next + 3) = .chainmap [h.next + 2] := by
      rw [detached_get_mid prev h (h.next + 3) (by omega) (by omega) hal1,
        detachedPre_get_chain]
    unfold Heap.chainInsert
    rw [e1]
    show ((ContextLevel.initChild prev .DETACHED h).2.2.dictInsert
      (h.next + 2) k v).get b = h.get b
    rw [Heap.dictInsert_get_of_ne _ _ _ _ _ (by omega : b ≠ h.next + 2)]
    exact detached_get_of_lt_of_ne prev h b hb hba
  · intro x b hb hba
    rw [esg]
    unfold Heap.setInsert
    rw [detached_get_singletons]
    rw [Heap.get_set_of_ne _ _ _ _ (by omega : b ≠ h.next + 9)]
    exact detached_get_of_lt_of_ne prev h b hb hba

/-- Witness for the amended claim C6 at the concrete compilation root:
a key inserted into a freshly allocated child-side dict is invisible at
the parent's `arguments` address. -/
theorem claim_C6_detached_sharing_witness :
    (L0.wf HR ∧ HR.next ≤ HR.next ∧ L0.arguments < HR.next ∧
      L0.arguments ≠ L0.aliases) ∧
    ((ContextLevel.initChild L0 .DETACHED HR).2.2.dictInsert HR.next 7 8).get
      L0.arguments = HR.get L0.arguments :=
  ⟨⟨by decide, le_refl _, by decide, by decide⟩,
    (claim_C6_detached_sharing L0 HR (by decide)).2.2.2.1 HR.next 7 8
      L0.arguments (le_refl _) (by decide) (by decide)⟩
